import Mathlib

/-!
Verification of the SQL parse/format core of the rawsql-ts repository.

The development shallowly embeds the TypeScript sources:
  * `src/src/parsers/SelectParser.ts`       (class SelectClauseParser)
  * `src/src/parsers/SelectQueryParser.ts`  (class SelectQueryParser)
  * `src/unnamed/part_004`                  (class SourceParser)
  * `src/unnamed/part_001`                  (class SqlFormatter)
  * `src/packages/core/src/transformers/SqlPrinter.ts` (class SqlPrinter)

Components of the repository that are imported by these files but whose
sources are not available (SqlTokenizer, ValueParser, the clause parsers
other than the select clause, LinePrinter, CTEDependencyTracer, the
print-token lowering SqlPrintTokenParser) are modelled from the
specification; each such definition is marked `Modelled from the spec`.

Thrown JavaScript errors are modelled by an explicit error type and the
`Except` monad.  An out-of-bounds array element access followed by a
property read (`lexemes[idx].value` with `idx` past the end) throws a
`TypeError` in JavaScript; this is modelled by the `typeError`
constructor.  The constructors `parseErrorS` and `presetErrorS` mirror
the structured `ParseError` / `PresetError` classes described by the
specification's error taxonomy, so that "the code raises a structured
error" is an expressible (and refutable) statement.
-/

namespace RawSql

/-- JavaScript errors thrown by the embedded code (`error` is `new
Error(msg)`, `typeError` is the runtime TypeError raised by reading a
property of `undefined`), together with the structured error classes
named by the specification (`parseErrorS`, `presetErrorS`), which the
embedded code never constructs. -/
inductive ThrownError where
  | error (message : String)
  | typeError (message : String)
  | parseErrorS (offset : Nat) (expected : List String) (found : String) (context : List String)
  | presetErrorS (message : String)
  deriving Repr, DecidableEq

/-- Token kinds of the lexeme model (`src/src/models/Lexeme`). -/
inductive TokenType where
  | Identifier
  | Keyword
  | Literal
  | Operator
  | Comma
  | Dot
  | OpenParen
  | CloseParen
  | Parameter
  | Function
  deriving Repr, DecidableEq

/-- A lexeme: a token kind together with its (keyword-lowercased)
textual value. -/
structure Lexeme where
  type : TokenType
  value : String
  deriving Repr, DecidableEq


/-- Lowercasing that reduces definitionally (the library
`String.toLower` is compiled by well-founded recursion and does not);
models JavaScript `toLowerCase` on the ASCII strings the code compares. -/
def strToLower (s : String) : String := ⟨s.data.map Char.toLower⟩

/-- Uppercasing counterpart of `strToLower`. -/
def strToUpper (s : String) : String := ⟨s.data.map Char.toUpper⟩

/-- Digit-string to number (reduces definitionally). -/
def digitsToNat (l : List Char) : Nat := l.foldl (fun a c => a * 10 + (c.toNat - 48)) 0

/-- Result of a parser routine: the parsed node and the new cursor,
mirroring the `{ value, newIndex }` records of the source. -/
structure ParseResult (α : Type) where
  value : α
  newIndex : Nat
  deriving Repr, DecidableEq

/-- Value expressions (`src/src/models/ValueComponent`), restricted to
the atoms exercised by the claims. -/
inductive ValueComponent where
  | columnReference (qualifiers : Option (List String)) (column : String)
  | literalValue (raw : String)
  deriving Repr, DecidableEq

/-- A select item: either a value with an alias (`SelectItem`) or, for
alias-less items, the bare value component (`SelectClauseParser.ParseItem`
returns the `ValueComponent` itself in that case). -/
inductive SelectComponent where
  | selectItem (value : ValueComponent) (aliasName : String)
  | bare (value : ValueComponent)
  deriving Repr, DecidableEq

/-- The select clause node: a list of select items. -/
structure SelectClause where
  items : List SelectComponent
  deriving Repr, DecidableEq

/-- Modelled from the spec: `ValueParser.Parse` is imported by
`SelectParser.ts` but its source is not under `src/`.  Following the
specification's expression grammar, it parses a single atom: an
identifier (optionally a dot-separated chain, producing a column
reference) or a literal.  Operators and the remaining atom forms are not
needed by any claim below; every claim that depends on `ValueParser`
only constrains the cursor position it returns. -/
def ValueParser.parseDotChain (lexemes : List Lexeme) (idx : Nat) (acc : List String)
    (fuel : Nat) : List String × Nat :=
  match fuel with
  | 0 => (acc, idx)
  | fuel + 1 =>
    match lexemes[idx]?, lexemes[idx+1]? with
    | some d, some i =>
      if d.type = TokenType.Dot ∧ i.type = TokenType.Identifier then
        ValueParser.parseDotChain lexemes (idx + 2) (acc ++ [i.value]) fuel
      else (acc, idx)
    | _, _ => (acc, idx)
termination_by structural fuel

/-- Modelled from the spec: atom parsing of the missing `ValueParser`
(see `ValueParser.parseDotChain`). -/
def ValueParser.Parse (lexemes : List Lexeme) (idx : Nat) :
    Except ThrownError (ParseResult ValueComponent) :=
  match lexemes[idx]? with
  | none => .error (.error ("Unexpected end of input at index " ++ toString idx))
  | some l =>
    if l.type = TokenType.Identifier then
      let chain := ValueParser.parseDotChain lexemes (idx + 1) [l.value] lexemes.length
      match chain.1 with
      | [] => .error (.error "unreachable")
      | [c] => .ok ⟨ValueComponent.columnReference none c, chain.2⟩
      | cs =>
        .ok ⟨ValueComponent.columnReference (some (cs.dropLast)) (cs.getLast!), chain.2⟩
    else if l.type = TokenType.Literal then
      .ok ⟨ValueComponent.literalValue l.value, idx + 1⟩
    else
      .error (.error ("Unexpected token at index " ++ toString idx ++ ": " ++ l.value))

/-- `SelectClauseParser.ParseItem` (src/src/parsers/SelectParser.ts,
lines 51-76): parses a value, consumes a following `as` lexeme if
present, and attaches an alias only when the next lexeme is an
identifier; otherwise the item is returned alias-less. -/
def SelectClauseParser.ParseItem (lexemes : List Lexeme) (index : Nat) :
    Except ThrownError (ParseResult SelectComponent) := do
  let parsedValue ← ValueParser.Parse lexemes index
  let value := parsedValue.value
  let idx0 := parsedValue.newIndex
  -- `if (idx < lexemes.length && lexemes[idx].value === 'as') { idx++; }`
  let idx1 :=
    match lexemes[idx0]? with
    | some l => if l.value = "as" then idx0 + 1 else idx0
    | none => idx0
  -- `if (idx < lexemes.length && lexemes[idx].type === TokenType.Identifier)`
  match lexemes[idx1]? with
  | some l =>
    if l.type = TokenType.Identifier then
      .ok ⟨SelectComponent.selectItem value l.value, idx1 + 1⟩
    else
      .ok ⟨SelectComponent.bare value, idx1⟩
  | none => .ok ⟨SelectComponent.bare value, idx1⟩

/-- Comma-separated item loop of `SelectClauseParser.Parse`
(`while (idx < lexemes.length && lexemes[idx].type === TokenType.Comma)`). -/
def SelectClauseParser.parseItemLoop (lexemes : List Lexeme) (idx : Nat)
    (acc : List SelectComponent) (fuel : Nat) :
    Except ThrownError (ParseResult (List SelectComponent)) :=
  match fuel with
  | 0 => .error (.error "fuel exhausted")
  | fuel + 1 =>
    match lexemes[idx]? with
    | some l =>
      if l.type = TokenType.Comma then do
        let item ← SelectClauseParser.ParseItem lexemes (idx + 1)
        SelectClauseParser.parseItemLoop lexemes item.newIndex (acc ++ [item.value]) fuel
      else .ok ⟨acc, idx⟩
    | none => .ok ⟨acc, idx⟩
termination_by structural fuel

/-- `SelectClauseParser.Parse` (src/src/parsers/SelectParser.ts, lines
23-49).  Note that the source reads `lexemes[idx].value` without a
bounds check, so an empty or exhausted stream raises a TypeError. -/
def SelectClauseParser.Parse (lexemes : List Lexeme) (index : Nat) :
    Except ThrownError (ParseResult SelectClause) := do
  match lexemes[index]? with
  | none =>
    -- `lexemes[idx].value` with idx out of bounds: property read on undefined
    .error (.typeError "Cannot read properties of undefined (reading 'value')")
  | some l =>
    if l.value ≠ "select" then
      .error (.error ("Expected 'SELECT' at index " ++ toString index))
    else do
      let idx := index + 1
      let item ← SelectClauseParser.ParseItem lexemes idx
      let rest ← SelectClauseParser.parseItemLoop lexemes item.newIndex [item.value]
        (lexemes.length + 1)
      -- the `items.length === 0` branch is unreachable: one item is always parsed
      .ok ⟨⟨rest.value⟩, rest.newIndex⟩

/-- `SelectClauseParser.ParseFromText` without the tokenizer step
(src/src/parsers/SelectParser.ts, lines 8-21): parses from a lexeme
sequence and rejects trailing tokens.  The tokenizer itself is not under
`src/`, so entry is at the lexeme level. -/
def SelectClauseParser.ParseFromLexemes (lexemes : List Lexeme) :
    Except ThrownError SelectClause := do
  let result ← SelectClauseParser.Parse lexemes 0
  if result.newIndex < lexemes.length then
    .error (.error ("Unexpected token at index " ++ toString result.newIndex ++ ": "
      ++ ((lexemes[result.newIndex]?).map Lexeme.value).getD ""))
  else
    .ok result.value

mutual

/-- The `SelectQuery` node (src/src/models): the ten clause slots passed
to the constructor at src/src/parsers/SelectQueryParser.ts lines 106-117,
in that order. -/
inductive SelectQuery where
  | mk (withClause : Option WithClauseNode) (selectClause : SelectClause)
      (fromClause : Option FromClauseNode) (whereClause : Option ValueComponent)
      (groupByClause : Option (List ValueComponent)) (havingClause : Option ValueComponent)
      (orderByClause : Option ValueComponent) (windowFrameClause : Option String)
      (limitClause : Option ValueComponent) (forClause : Option String)

/-- WITH clause node: optional RECURSIVE flag and the common tables. -/
inductive WithClauseNode where
  | mk (recursive : Bool) (tables : List CommonTableNode)

/-- A common table: alias name and its query. -/
inductive CommonTableNode where
  | mk (aliasName : String) (query : SelectQuery)

/-- FROM clause node: the leading source (join list omitted; no claim
depends on joins). -/
inductive FromClauseNode where
  | mk (source : SourceComponent)

/-- Source nodes (src/unnamed/part_004 `SourceComponent`):
table, subquery, or function source. -/
inductive SourceComponent where
  | tableSource (qualifiers : Option (List String)) (name : String)
  | subQuerySource (query : SelectQuery)
  | functionSource (name : String) (args : List ValueComponent)

end

/-- Modelled from the spec: `WhereClauseParser` is not under `src/`.  It
consumes the `where` keyword and one condition expression. -/
def WhereClauseParser.parse (lexemes : List Lexeme) (index : Nat) :
    Except ThrownError (ParseResult ValueComponent) := do
  let cond ← ValueParser.Parse lexemes (index + 1)
  .ok ⟨cond.value, cond.newIndex⟩

/-- Modelled from the spec: `GroupByClauseParser` is not under `src/`.
It consumes the fused `group by` keyword and a comma list of values. -/
def GroupByClauseParser.parseList (lexemes : List Lexeme) (idx : Nat)
    (acc : List ValueComponent) (fuel : Nat) :
    Except ThrownError (ParseResult (List ValueComponent)) :=
  match fuel with
  | 0 => .error (.error "fuel exhausted")
  | fuel + 1 =>
    match lexemes[idx]? with
    | some l =>
      if l.type = TokenType.Comma then do
        let v ← ValueParser.Parse lexemes (idx + 1)
        GroupByClauseParser.parseList lexemes v.newIndex (acc ++ [v.value]) fuel
      else .ok ⟨acc, idx⟩
    | none => .ok ⟨acc, idx⟩
termination_by structural fuel

/-- Modelled from the spec: see `GroupByClauseParser.parseList`. -/
def GroupByClauseParser.parse (lexemes : List Lexeme) (index : Nat) :
    Except ThrownError (ParseResult (List ValueComponent)) := do
  let v ← ValueParser.Parse lexemes (index + 1)
  let rest ← GroupByClauseParser.parseList lexemes v.newIndex [v.value] (lexemes.length + 1)
  .ok ⟨rest.value, rest.newIndex⟩

/-- Modelled from the spec: `HavingClauseParser` is not under `src/`. -/
def HavingClauseParser.parse (lexemes : List Lexeme) (index : Nat) :
    Except ThrownError (ParseResult ValueComponent) := do
  let cond ← ValueParser.Parse lexemes (index + 1)
  .ok ⟨cond.value, cond.newIndex⟩

/-- Modelled from the spec: `OrderByClauseParser` is not under `src/`.
It consumes `order by` and one order item (direction suffix omitted). -/
def OrderByClauseParser.parse (lexemes : List Lexeme) (index : Nat) :
    Except ThrownError (ParseResult ValueComponent) := do
  let v ← ValueParser.Parse lexemes (index + 1)
  .ok ⟨v.value, v.newIndex⟩

/-- Modelled from the spec: `WindowClauseParser` is not under `src/`.
It consumes the `window` keyword and the window name; the named window
definition body is not needed by any claim. -/
def WindowClauseParser.parse (lexemes : List Lexeme) (index : Nat) :
    Except ThrownError (ParseResult String) :=
  match lexemes[index + 1]? with
  | some l =>
    if l.type = TokenType.Identifier then .ok ⟨l.value, index + 2⟩
    else .error (.error ("Expected window name at index " ++ toString (index + 1)))
  | none => .error (.error ("Unexpected end of input at index " ++ toString (index + 1)))

/-- Modelled from the spec: `LimitClauseParser` is not under `src/`.
It consumes `limit` and one value. -/
def LimitClauseParser.parse (lexemes : List Lexeme) (index : Nat) :
    Except ThrownError (ParseResult ValueComponent) := do
  let v ← ValueParser.Parse lexemes (index + 1)
  .ok ⟨v.value, v.newIndex⟩

/-- Modelled from the spec: `ForClauseParser` is not under `src/`.
It consumes `for` and the lock mode keyword. -/
def ForClauseParser.parse (lexemes : List Lexeme) (index : Nat) :
    Except ThrownError (ParseResult String) :=
  match lexemes[index + 1]? with
  | some l =>
    if l.value = "update" ∨ l.value = "share" then .ok ⟨l.value, index + 2⟩
    else .error (.error ("Expected lock mode at index " ++ toString (index + 1)))
  | none => .error (.error ("Unexpected end of input at index " ++ toString (index + 1)))

/-- Dot/identifier chain loop of `SourceParser.parseTableSource`
(src/unnamed/part_004, lines 35-45). -/
def SourceParser.tableChainLoop (lexemes : List Lexeme) (idx : Nat)
    (acc : List String) (fuel : Nat) : List String × Nat :=
  match fuel with
  | 0 => (acc, idx)
  | fuel + 1 =>
    match lexemes[idx]?, lexemes[idx + 1]? with
    | some d, some i =>
      if d.type = TokenType.Dot ∧ i.type = TokenType.Identifier then
        SourceParser.tableChainLoop lexemes (idx + 2) (acc ++ [i.value]) fuel
      else (acc, idx)
    | _, _ => (acc, idx)
termination_by structural fuel

/-- `SourceParser.parseTableSource` (src/unnamed/part_004, lines 25-57).
The source reads `lexemes[idx].value` without a bounds check before the
loop, so an exhausted stream raises a TypeError. -/
def SourceParser.parseTableSource (lexemes : List Lexeme) (index : Nat) :
    Except ThrownError (ParseResult SourceComponent) :=
  match lexemes[index]? with
  | none => .error (.typeError "Cannot read properties of undefined (reading 'value')")
  | some l =>
    let chain := SourceParser.tableChainLoop lexemes (index + 1) [l.value] lexemes.length
    match chain.1 with
    | [] => .error (.error "unreachable")
    | [n] => .ok ⟨SourceComponent.tableSource none n, chain.2⟩
    | ns => .ok ⟨SourceComponent.tableSource (some ns.dropLast) ns.getLast!, chain.2⟩

/-- Modelled from the spec: `ValueParser.parseArgument` is not under
`src/`.  It expects an open parenthesis, parses a comma list of values,
and consumes the closing parenthesis. -/
def ValueParser.parseArgumentLoop (lexemes : List Lexeme) (idx : Nat)
    (acc : List ValueComponent) (fuel : Nat) :
    Except ThrownError (ParseResult (List ValueComponent)) :=
  match fuel with
  | 0 => .error (.error "fuel exhausted")
  | fuel + 1 =>
    match lexemes[idx]? with
    | some l =>
      if l.type = TokenType.Comma then do
        let v ← ValueParser.Parse lexemes (idx + 1)
        ValueParser.parseArgumentLoop lexemes v.newIndex (acc ++ [v.value]) fuel
      else .ok ⟨acc, idx⟩
    | none => .ok ⟨acc, idx⟩
termination_by structural fuel

/-- Modelled from the spec: see `ValueParser.parseArgumentLoop`. -/
def ValueParser.parseArgument (lexemes : List Lexeme) (index : Nat) :
    Except ThrownError (ParseResult (List ValueComponent)) := do
  match lexemes[index]? with
  | some o =>
    if o.type = TokenType.OpenParen then do
      let v ← ValueParser.Parse lexemes (index + 1)
      let rest ← ValueParser.parseArgumentLoop lexemes v.newIndex [v.value] (lexemes.length + 1)
      match lexemes[rest.newIndex]? with
      | some c =>
        if c.type = TokenType.CloseParen then .ok ⟨rest.value, rest.newIndex + 1⟩
        else .error (.error ("Expected closing parenthesis at index " ++ toString rest.newIndex))
      | none => .error (.error ("Expected closing parenthesis at index " ++ toString rest.newIndex))
    else .error (.error ("Expected opening parenthesis at index " ++ toString index))
  | none => .error (.error ("Unexpected end of input at index " ++ toString index))

/-- `SourceParser.parseFunctionSource` (src/unnamed/part_004, lines
59-69). -/
def SourceParser.parseFunctionSource (lexemes : List Lexeme) (index : Nat) :
    Except ThrownError (ParseResult SourceComponent) :=
  match lexemes[index]? with
  | none => .error (.typeError "Cannot read properties of undefined (reading 'value')")
  | some l => do
    let args ← ValueParser.parseArgument lexemes (index + 1)
    .ok ⟨SourceComponent.functionSource l.value args.value, args.newIndex⟩

mutual

/-- `SelectQueryParser.parse` (src/src/parsers/SelectQueryParser.ts,
lines 31-120): optional WITH, required SELECT, then the optional clauses
in source order (FROM, WHERE, GROUP BY, HAVING, WINDOW, ORDER BY, LIMIT,
FOR).  The function returns right after the clause chain; it contains no
set-operator handling.  The `fuel` argument only bounds the recursion
through subqueries and WITH bodies (each such descent consumes at least
one lexeme, so `lexemes.length + 1` fuel at entry can never run out);
it models no behaviour of the source. -/
def SelectQueryParser.parseFueled (fuel : Nat) (lexemes : List Lexeme) (index : Nat) :
    Except ThrownError (ParseResult SelectQuery) :=
  match fuel with
  | 0 => .error (.error "fuel exhausted")
  | fuel + 1 => do
    let idx := index
    -- optional WITH clause
    let withStep ←
      match lexemes[idx]? with
      | some l =>
        if strToLower l.value = "with" then do
          let w ← WithClauseParser.parseFueled fuel lexemes idx
          pure (some w.value, w.newIndex)
        else pure (none, idx)
      | none => pure ((none : Option WithClauseNode), idx)
    let idx := withStep.2
    -- required SELECT clause
    match lexemes[idx]? with
    | none =>
      .error (.error ("Syntax error at position " ++ toString idx ++
        ": Expected 'SELECT' keyword but found \"end of input\". SELECT queries must start with the SELECT keyword."))
    | some l =>
      if strToLower l.value ≠ "select" then
        .error (.error ("Syntax error at position " ++ toString idx ++
          ": Expected 'SELECT' keyword but found \"" ++ l.value ++
          "\". SELECT queries must start with the SELECT keyword."))
      else do
        let selectClauseResult ← SelectClauseParser.Parse lexemes idx
        let idx := selectClauseResult.newIndex
        -- optional FROM clause
        let fromStep ←
          match lexemes[idx]? with
          | some l =>
            if strToLower l.value = "from" then do
              let f ← FromClauseParser.parseFueled fuel lexemes idx
              pure (some f.value, f.newIndex)
            else pure (none, idx)
          | none => pure ((none : Option FromClauseNode), idx)
        let idx := fromStep.2
        -- optional WHERE clause
        let whereStep ←
          match lexemes[idx]? with
          | some l =>
            if strToLower l.value = "where" then do
              let w ← WhereClauseParser.parse lexemes idx
              pure (some w.value, w.newIndex)
            else pure (none, idx)
          | none => pure ((none : Option ValueComponent), idx)
        let idx := whereStep.2
        -- optional GROUP BY clause
        let groupStep ←
          match lexemes[idx]? with
          | some l =>
            if strToLower l.value = "group by" then do
              let g ← GroupByClauseParser.parse lexemes idx
              pure (some g.value, g.newIndex)
            else pure (none, idx)
          | none => pure ((none : Option (List ValueComponent)), idx)
        let idx := groupStep.2
        -- optional HAVING clause
        let havingStep ←
          match lexemes[idx]? with
          | some l =>
            if strToLower l.value = "having" then do
              let h ← HavingClauseParser.parse lexemes idx
              pure (some h.value, h.newIndex)
            else pure (none, idx)
          | none => pure ((none : Option ValueComponent), idx)
        let idx := havingStep.2
        -- optional WINDOW clause
        let windowStep ←
          match lexemes[idx]? with
          | some l =>
            if strToLower l.value = "window" then do
              let w ← WindowClauseParser.parse lexemes idx
              pure (some w.value, w.newIndex)
            else pure (none, idx)
          | none => pure ((none : Option String), idx)
        let idx := windowStep.2
        -- optional ORDER BY clause
        let orderStep ←
          match lexemes[idx]? with
          | some l =>
            if strToLower l.value = "order by" then do
              let o ← OrderByClauseParser.parse lexemes idx
              pure (some o.value, o.newIndex)
            else pure (none, idx)
          | none => pure ((none : Option ValueComponent), idx)
        let idx := orderStep.2
        -- optional LIMIT clause
        let limitStep ←
          match lexemes[idx]? with
          | some l =>
            if strToLower l.value = "limit" then do
              let lm ← LimitClauseParser.parse lexemes idx
              pure (some lm.value, lm.newIndex)
            else pure (none, idx)
          | none => pure ((none : Option ValueComponent), idx)
        let idx := limitStep.2
        -- optional FOR clause
        let forStep ←
          match lexemes[idx]? with
          | some l =>
            if strToLower l.value = "for" then do
              let f ← ForClauseParser.parse lexemes idx
              pure (some f.value, f.newIndex)
            else pure (none, idx)
          | none => pure ((none : Option String), idx)
        let idx := forStep.2
        .ok ⟨SelectQuery.mk withStep.1 selectClauseResult.value fromStep.1 whereStep.1
          groupStep.1 havingStep.1 orderStep.1 windowStep.1 limitStep.1 forStep.1, idx⟩
termination_by structural fuel

/-- Modelled from the spec: `WithClauseParser` is not under `src/`.  It
consumes `with` (optional `recursive`) and a comma list of common tables
of the form `alias as ( select ... )`, recursing into the query parser
for each body. -/
def WithClauseParser.parseFueled (fuel : Nat) (lexemes : List Lexeme) (index : Nat) :
    Except ThrownError (ParseResult WithClauseNode) :=
  match fuel with
  | 0 => .error (.error "fuel exhausted")
  | fuel + 1 => do
    let idx := index + 1
    let recStep :=
      match lexemes[idx]? with
      | some l => if l.value = "recursive" then (true, idx + 1) else (false, idx)
      | none => (false, idx)
    let first ← WithClauseParser.parseCommonTable fuel lexemes recStep.2
    let rest ← WithClauseParser.parseTableLoop fuel lexemes first.newIndex [first.value]
    .ok ⟨WithClauseNode.mk recStep.1 rest.value, rest.newIndex⟩
termination_by structural fuel

/-- Modelled from the spec: one `alias as ( select ... )` entry of the
missing `WithClauseParser`. -/
def WithClauseParser.parseCommonTable (fuel : Nat) (lexemes : List Lexeme) (index : Nat) :
    Except ThrownError (ParseResult CommonTableNode) :=
  match fuel with
  | 0 => .error (.error "fuel exhausted")
  | fuel + 1 =>
    match lexemes[index]?, lexemes[index + 1]?, lexemes[index + 2]? with
    | some nameLex, some asLex, some openLex =>
      if nameLex.type = TokenType.Identifier ∧ asLex.value = "as" ∧
          openLex.type = TokenType.OpenParen then do
        let q ← SelectQueryParser.parseFueled fuel lexemes (index + 3)
        match lexemes[q.newIndex]? with
        | some closeLex =>
          if closeLex.type = TokenType.CloseParen then
            .ok ⟨CommonTableNode.mk nameLex.value q.value, q.newIndex + 1⟩
          else .error (.error ("Expected closing parenthesis at index " ++ toString q.newIndex))
        | none => .error (.error ("Expected closing parenthesis at index " ++ toString q.newIndex))
      else .error (.error ("Expected common table at index " ++ toString index))
    | _, _, _ => .error (.error ("Expected common table at index " ++ toString index))
termination_by structural fuel

/-- Modelled from the spec: comma loop over common tables of the missing
`WithClauseParser`. -/
def WithClauseParser.parseTableLoop (fuel : Nat) (lexemes : List Lexeme) (idx : Nat)
    (acc : List CommonTableNode) :
    Except ThrownError (ParseResult (List CommonTableNode)) :=
  match fuel with
  | 0 => .error (.error "fuel exhausted")
  | fuel + 1 =>
    match lexemes[idx]? with
    | some l =>
      if l.type = TokenType.Comma then do
        let t ← WithClauseParser.parseCommonTable fuel lexemes (idx + 1)
        WithClauseParser.parseTableLoop fuel lexemes t.newIndex (acc ++ [t.value])
      else .ok ⟨acc, idx⟩
    | none => .ok ⟨acc, idx⟩
termination_by structural fuel

/-- Modelled from the spec: `FromClauseParser` is not under `src/`.  It
consumes the `from` keyword and delegates to the `SourceParser` of
src/unnamed/part_004 for the leading source (joins omitted; no claim
depends on joins). -/
def FromClauseParser.parseFueled (fuel : Nat) (lexemes : List Lexeme) (index : Nat) :
    Except ThrownError (ParseResult FromClauseNode) :=
  match fuel with
  | 0 => .error (.error "fuel exhausted")
  | fuel + 1 => do
    let s ← SourceParser.parseFueled fuel lexemes (index + 1)
    .ok ⟨FromClauseNode.mk s.value, s.newIndex⟩
termination_by structural fuel

/-- `SourceParser.parse` (src/unnamed/part_004, lines 8-23): dispatches
on the token at the cursor — open parenthesis to `parseParenSource`,
function token to `parseFunctionSource`, otherwise `parseTableSource`. -/
def SourceParser.parseFueled (fuel : Nat) (lexemes : List Lexeme) (index : Nat) :
    Except ThrownError (ParseResult SourceComponent) :=
  match fuel with
  | 0 => .error (.error "fuel exhausted")
  | fuel + 1 =>
    match lexemes[index]? with
    | some l =>
      if l.type = TokenType.OpenParen then
        SourceParser.parseParenSourceFueled fuel lexemes index
      else if l.type = TokenType.Function then
        SourceParser.parseFunctionSource lexemes index
      else
        SourceParser.parseTableSource lexemes index
    | none =>
      -- both guards are `idx < lexemes.length && ...`, so an exhausted
      -- stream falls through to parseTableSource
      SourceParser.parseTableSource lexemes index
termination_by structural fuel

/-- `SourceParser.parseParenSource` (src/unnamed/part_004, lines 71-102):
after the open parenthesis, only a `select` lexeme (subquery) or another
open parenthesis (nested paren source) is accepted; anything else —
including a VALUES query — raises an error. -/
def SourceParser.parseParenSourceFueled (fuel : Nat) (lexemes : List Lexeme) (index : Nat) :
    Except ThrownError (ParseResult SourceComponent) :=
  match fuel with
  | 0 => .error (.error "fuel exhausted")
  | fuel + 1 =>
    -- skip the open parenthesis
    let idx := index + 1
    match lexemes[idx]? with
    | none => .error (.error ("Unexpected end of input at index " ++ toString idx))
    | some l =>
      if l.value = "select" then do
        let result ← SourceParser.parseSubQuerySourceFueled fuel lexemes idx
        match lexemes[result.newIndex]? with
        | some c =>
          if c.type = TokenType.CloseParen then
            .ok ⟨result.value, result.newIndex + 1⟩
          else .error (.error ("Expected closing parenthesis at index " ++ toString result.newIndex))
        | none => .error (.error ("Expected closing parenthesis at index " ++ toString result.newIndex))
      else if l.type = TokenType.OpenParen then do
        let result ← SourceParser.parseParenSourceFueled fuel lexemes idx
        match lexemes[result.newIndex]? with
        | some c =>
          if c.type = TokenType.CloseParen then
            .ok ⟨result.value, result.newIndex + 1⟩
          else .error (.error ("Expected closing parenthesis at index " ++ toString result.newIndex))
        | none => .error (.error ("Expected closing parenthesis at index " ++ toString result.newIndex))
      else
        .error (.error ("Expected 'SELECT' or '(' at index " ++ toString idx))
termination_by structural fuel

/-- `SourceParser.parseSubQuerySource` (src/unnamed/part_004, lines
104-112): delegates to `SelectQueryParser.parse`. -/
def SourceParser.parseSubQuerySourceFueled (fuel : Nat) (lexemes : List Lexeme) (index : Nat) :
    Except ThrownError (ParseResult SourceComponent) :=
  match fuel with
  | 0 => .error (.error "fuel exhausted")
  | fuel + 1 => do
    let q ← SelectQueryParser.parseFueled fuel lexemes index
    .ok ⟨SourceComponent.subQuerySource q.value, q.newIndex⟩
termination_by structural fuel

end

/-- Entry point of `SourceParser.parse` with the fuel instantiated so it
can never run out (each recursive descent consumes at least one lexeme). -/
def SourceParser.parse (lexemes : List Lexeme) (index : Nat) :
    Except ThrownError (ParseResult SourceComponent) :=
  SourceParser.parseFueled (lexemes.length + 1) lexemes index

/-- Entry point of `SelectQueryParser.parse` with the fuel instantiated
so it can never run out. -/
def SelectQueryParser.parse (lexemes : List Lexeme) (index : Nat) :
    Except ThrownError (ParseResult SelectQuery) :=
  SelectQueryParser.parseFueled (lexemes.length + 1) lexemes index

/-- `SelectQueryParser.parseFromText` (src/src/parsers/SelectQueryParser.ts,
lines 16-29) from the lexeme stage onwards: the tokenizer is not under
`src/`, so entry is at the lexeme level; the trailing-token rejection of
lines 23-26 is embedded verbatim. -/
def SelectQueryParser.parseFromLexemes (lexemes : List Lexeme) :
    Except ThrownError SelectQuery := do
  let result ← SelectQueryParser.parse lexemes 0
  if result.newIndex < lexemes.length then
    .error (.error ("Syntax error: Unexpected token \"" ++
      ((lexemes[result.newIndex]?).map Lexeme.value).getD "" ++ "\" at position " ++
      toString result.newIndex ++
      ". The SELECT query is complete but there are additional tokens."))
  else
    .ok result.value

/-! ## Formatter layer

Embedding of `SqlPrinter` (src/packages/core/src/transformers/SqlPrinter.ts)
and `SqlFormatter` (src/unnamed/part_001).  `LinePrinter`, the print-token
lowering `SqlPrintTokenParser` and the `CTEDependencyTracer` are not under
`src/` and are modelled from the spec where marked. -/

/-- Print-token kinds (src/packages/core usage of `SqlPrintTokenType`):
only the kinds the printer dispatches on are distinguished; every other
kind behaves like `plain`. -/
inductive SqlPrintTokenType where
  | keyword
  | comma
  | operator
  | comment
  | plain
  deriving Repr, DecidableEq

/-- Print-token container kinds (`SqlPrintTokenContainerType`); `plain`
stands for tokens with no container tag. -/
inductive ContainerType where
  | plain
  | SelectClause
  | FromClause
  | WhereClause
  | GroupByClause
  | HavingClause
  | WindowFrameExpression
  | PartitionByClause
  | OrderByClause
  | WindowClause
  | LimitClause
  | OffsetClause
  | SubQuerySource
  | BinarySelectQueryOperator
  | Values
  | WithClause
  | SwitchCaseArgument
  | CaseKeyValuePair
  | CaseThenValue
  | ElseClause
  | CaseElseValue
  | CommonTable
  | JoinClause
  deriving Repr, DecidableEq

/-- A print token (`SqlPrintToken`): kind, text, container tag, child
tokens and attached keyword tokens. -/
inductive SqlPrintToken where
  | mk (type : SqlPrintTokenType) (text : String) (containerType : ContainerType)
      (innerTokens : List SqlPrintToken) (keywordTokens : List SqlPrintToken)

/-- Token kind accessor. -/
def SqlPrintToken.type : SqlPrintToken → SqlPrintTokenType
  | .mk t _ _ _ _ => t

/-- Token text accessor. -/
def SqlPrintToken.text : SqlPrintToken → String
  | .mk _ s _ _ _ => s

/-- Container tag accessor. -/
def SqlPrintToken.containerType : SqlPrintToken → ContainerType
  | .mk _ _ c _ _ => c

/-- Child token accessor. -/
def SqlPrintToken.innerTokens : SqlPrintToken → List SqlPrintToken
  | .mk _ _ _ i _ => i

/-- Keyword token accessor. -/
def SqlPrintToken.keywordTokens : SqlPrintToken → List SqlPrintToken
  | .mk _ _ _ _ k => k

/-- The default indent-incrementing container set
(src/packages/core/src/transformers/SqlPrinter.ts, lines 131-156).
`SqlFormatter` never passes `indentIncrementContainerTypes`, so the
default set always applies.  `CommonTable` is deliberately absent
(commented out in the source). -/
def indentIncrementContainers : ContainerType → Bool
  | .SelectClause => true
  | .FromClause => true
  | .WhereClause => true
  | .GroupByClause => true
  | .HavingClause => true
  | .WindowFrameExpression => true
  | .PartitionByClause => true
  | .OrderByClause => true
  | .WindowClause => true
  | .LimitClause => true
  | .OffsetClause => true
  | .SubQuerySource => true
  | .BinarySelectQueryOperator => true
  | .Values => true
  | .WithClause => true
  | .SwitchCaseArgument => true
  | .CaseKeyValuePair => true
  | .CaseThenValue => true
  | .ElseClause => true
  | .CaseElseValue => true
  | _ => false

/-- Comma break style (`CommaBreakStyle`). -/
inductive CommaBreakStyle where
  | none
  | before
  | after
  deriving Repr, DecidableEq

/-- Keyword case style. -/
inductive KeywordCase where
  | none
  | upper
  | lower
  deriving Repr, DecidableEq

/-- One output line of the line printer: indentation level and text. -/
structure PrintLine where
  level : Nat
  text : String
  deriving Repr, DecidableEq

/-- Modelled from the spec: `LinePrinter` is not under `src/`.  It keeps
an ordered list of lines; the last line is the current line buffer. -/
structure LinePrinterState where
  lines : List PrintLine
  deriving Repr, DecidableEq

/-- Modelled from the spec: a fresh line printer holds one empty line at
level 0. -/
def LinePrinterState.init : LinePrinterState := ⟨[⟨0, ""⟩]⟩

/-- Modelled from the spec: text is appended to the current (last) line. -/
def LinePrinterState.appendText (lp : LinePrinterState) (t : String) : LinePrinterState :=
  match lp.lines.getLast? with
  | some last => ⟨lp.lines.dropLast ++ [⟨last.level, last.text ++ t⟩]⟩
  | none => ⟨[⟨0, t⟩]⟩

/-- Modelled from the spec: `appendNewline(level)` opens a new empty
line at the given level; if the current line is still empty it is merely
re-levelled (no empty lines are accumulated). -/
def LinePrinterState.appendNewline (lp : LinePrinterState) (level : Nat) : LinePrinterState :=
  match lp.lines.getLast? with
  | some last =>
    if last.text ≠ "" then ⟨lp.lines ++ [⟨level, ""⟩]⟩
    else ⟨lp.lines.dropLast ++ [⟨level, last.text⟩]⟩
  | none => ⟨[⟨level, ""⟩]⟩

/-- Text of the line at a given position (used to re-read the line that
was current when `appendToken` was entered). -/
def LinePrinterState.textAt (lp : LinePrinterState) (i : Nat) : String :=
  ((lp.lines[i]?).map PrintLine.text).getD ""

/-- Printer configuration and the two fields `SqlFormatter.format`
mutates (`cteOneline`, `importComments`); mirrors the `SqlPrinter`
fields of src/packages/core/src/transformers/SqlPrinter.ts. -/
structure SqlPrinterState where
  indentChar : String
  indentSize : Nat
  newline : String
  commaBreak : CommaBreakStyle
  andBreak : CommaBreakStyle
  keywordCase : KeywordCase
  exportComment : Bool
  strictCommentPlacement : Bool
  cteOneline : Bool
  cteOnelineDependency : Bool
  cteOnelineSet : List String
  importComments : List String
  deriving Repr, DecidableEq

/-- `applyKeywordCase` (SqlPrinter.ts lines 239-246). -/
def applyKeywordCase (kc : KeywordCase) (text : String) : String :=
  match kc with
  | .upper => strToUpper text
  | .lower => strToLower text
  | .none => text

/-- `shouldSkipToken` (SqlPrinter.ts lines 235-237): tokens with no
children and empty text are skipped (attached keyword tokens are not
consulted). -/
def shouldSkipToken (tok : SqlPrintToken) : Bool :=
  tok.innerTokens.isEmpty && tok.text = ""

/-- `extractCteNameFromToken` (SqlPrinter.ts lines 372-382): the text of
the first child token, when non-empty. -/
def extractCteNameFromToken (tok : SqlPrintToken) : Option String :=
  match tok.innerTokens with
  | t :: _ => if t.text ≠ "" then some t.text else none
  | [] => none

/-- `shouldFormatCteOneline` (SqlPrinter.ts lines 347-365): `cteOneline`
wins; otherwise dependency mode consults the per-name set. -/
def shouldFormatCteOneline (st : SqlPrinterState) (tok : SqlPrintToken) : Bool :=
  if st.cteOneline then true
  else if !st.cteOnelineDependency then false
  else
    match extractCteNameFromToken tok with
    | some n => st.cteOnelineSet.contains n
    | none => false

/-- `handleCommaToken` (SqlPrinter.ts lines 253-269). -/
def handleCommaToken (st : SqlPrinterState) (text : String) (level : Nat)
    (parentCT : Option ContainerType) (lp : LinePrinterState) : LinePrinterState :=
  if st.cteOneline ∧ parentCT = some ContainerType.WithClause then
    (lp.appendText text).appendNewline level
  else
    match st.commaBreak with
    | .before => (lp.appendNewline level).appendText text
    | .after => (lp.appendText text).appendNewline level
    | .none => lp.appendText text

/-- `handleAndOperatorToken` (SqlPrinter.ts lines 271-283). -/
def handleAndOperatorToken (st : SqlPrinterState) (text : String) (level : Nat)
    (lp : LinePrinterState) : LinePrinterState :=
  let t := applyKeywordCase st.keywordCase text
  match st.andBreak with
  | .before => (lp.appendNewline level).appendText t
  | .after => (lp.appendText t).appendNewline level
  | .none => lp.appendText t

/-- The recursively instantiated one-liner printer configuration
(`handleCteOnelineToken`, SqlPrinter.ts lines 301-317): indentation off,
newline forced to a space, `cteOneline` disabled to prevent recursion,
and all constructor defaults for the remaining fields. -/
def onelineStateOf (st : SqlPrinterState) : SqlPrinterState :=
  { indentChar := "", indentSize := 0, newline := " ",
    commaBreak := st.commaBreak, andBreak := st.andBreak,
    keywordCase := st.keywordCase, exportComment := st.exportComment,
    strictCommentPlacement := st.strictCommentPlacement,
    cteOneline := false, cteOnelineDependency := false,
    cteOnelineSet := [], importComments := [] }

/-- Rendering of the collected lines (modelled from the spec: the
`LinePrinter.print` source is not under `src/`): each non-empty line is
prefixed by `indentChar` repeated `indentSize * level` times and the
lines are joined by the newline string. -/
def renderLines (st : SqlPrinterState) (lp : LinePrinterState) : String :=
  String.intercalate st.newline
    (lp.lines.filterMap (fun l =>
      if l.text = "" then none
      else some (String.join (List.replicate (st.indentSize * l.level) st.indentChar) ++ l.text)))

/-- Sets the level of the first line (`print`, SqlPrinter.ts lines
171-173). -/
def setFirstLineLevel (lp : LinePrinterState) (level : Nat) : LinePrinterState :=
  match lp.lines with
  | l :: rest => ⟨⟨level, l.text⟩ :: rest⟩
  | [] => ⟨[]⟩

/-- `appendToken` (SqlPrinter.ts lines 180-233): the token dispatch
ladder, keyword-token pass, and the indent increment/decrement driven by
the container kind.  The `fuel` argument only bounds the recursion (the
only non-structural call is the one-liner sub-print, which re-enters on
the same token with a configuration that cannot trigger it again);
`tokenFuel` below always suffices.  `entryIdx` re-reads the line that
was current at entry, mirroring the captured `current` line object.
The body of `handleWithClauseToken` (SqlPrinter.ts lines 324-340) is
inlined in the first branch; `SqlPrinter.handleWithClauseFueled` below
restates it and agrees definitionally. -/
def SqlPrinter.appendTokenFueled (st : SqlPrinterState) (fuel : Nat) (tok : SqlPrintToken)
    (level : Nat) (parentCT : Option ContainerType) (lp : LinePrinterState) :
    LinePrinterState :=
  match fuel with
  | 0 => lp
  | fuel + 1 =>
    if shouldSkipToken tok then lp
    else
      let entryIdx := lp.lines.length - 1
      -- common tail after the non-early-return branches: keyword tokens,
      -- then the indent-incrementing walk over the child tokens
      let tail := fun (lp1 : LinePrinterState) =>
        let lp2 := tok.keywordTokens.foldl
          (fun l k => SqlPrinter.appendTokenFueled st fuel k level (some tok.containerType) l) lp1
        let entryText := lp2.textAt entryIdx
        if st.newline ≠ " " ∧ entryText ≠ "" ∧ indentIncrementContainers tok.containerType then
          let lp3 := lp2.appendNewline (level + 1)
          let lp4 := tok.innerTokens.foldl
            (fun l c => SqlPrinter.appendTokenFueled st fuel c (level + 1) (some tok.containerType) l) lp3
          lp4.appendNewline level
        else
          tok.innerTokens.foldl
            (fun l c => SqlPrinter.appendTokenFueled st fuel c level (some tok.containerType) l) lp2
      if tok.containerType = ContainerType.WithClause ∧ st.importComments ≠ [] then
        -- early return: handleWithClauseToken — clause text, children,
        -- then one import comment per line with a four-space prefix
        let lpInner := tok.innerTokens.foldl
          (fun l c => SqlPrinter.appendTokenFueled st fuel c level (some tok.containerType) l)
          (lp.appendText tok.text)
        st.importComments.foldl
          (fun l c => (l.appendNewline level).appendText ("    " ++ c)) lpInner
      else if tok.type = SqlPrintTokenType.keyword then
        tail (lp.appendText (applyKeywordCase st.keywordCase tok.text))
      else if tok.type = SqlPrintTokenType.comma then
        tail (handleCommaToken st tok.text level parentCT lp)
      else if tok.type = SqlPrintTokenType.operator ∧ strToLower tok.text = "and" then
        tail (handleAndOperatorToken st tok.text level lp)
      else if tok.containerType = ContainerType.JoinClause then
        tail ((lp.appendNewline level).appendText (applyKeywordCase st.keywordCase tok.text))
      else if tok.type = SqlPrintTokenType.comment then
        tail (if st.exportComment then (lp.appendText tok.text).appendText " " else lp)
      else if tok.containerType = ContainerType.CommonTable ∧ shouldFormatCteOneline st tok then
        -- early return: handleCteOnelineToken prints the whole token with
        -- the one-liner sub-printer and appends the resulting text
        let st' := onelineStateOf st
        let sub := renderLines st'
          (SqlPrinter.appendTokenFueled st' fuel tok level none
            (setFirstLineLevel LinePrinterState.init level))
        lp.appendText sub
      else
        tail (lp.appendText tok.text)
termination_by structural fuel

/-- `handleWithClauseToken` (SqlPrinter.ts lines 324-340): the clause
text and its children are printed first; then each import comment is
emitted on a new line at the same level, prefixed by four literal
spaces.  Definitionally equal to the first branch of
`appendTokenFueled` at fuel `fuel + 1`. -/
def SqlPrinter.handleWithClauseFueled (st : SqlPrinterState) (fuel : Nat)
    (tok : SqlPrintToken) (level : Nat) (lp : LinePrinterState) : LinePrinterState :=
  let lpText := lp.appendText tok.text
  let lpInner := tok.innerTokens.foldl
    (fun l c => SqlPrinter.appendTokenFueled st fuel c level (some tok.containerType) l) lpText
  st.importComments.foldl
    (fun l c => (l.appendNewline level).appendText ("    " ++ c)) lpInner

mutual

/-- Size of a print token tree (for fuel computation). -/
def SqlPrintToken.tsize : SqlPrintToken → Nat
  | .mk _ _ _ i k => 1 + SqlPrintToken.lsize i + SqlPrintToken.lsize k

/-- Size of a print token list (for fuel computation). -/
def SqlPrintToken.lsize : List SqlPrintToken → Nat
  | [] => 0
  | t :: ts => SqlPrintToken.tsize t + SqlPrintToken.lsize ts

end

/-- Fuel that can never run out for `appendTokenFueled` on a given
token: the recursion depth is bounded by the token-tree size, and the
one-liner sub-print adds at most one extra level per node. -/
def tokenFuel (tok : SqlPrintToken) : Nat := 2 * tok.tsize + 2

/-- `SqlPrinter.print` (SqlPrinter.ts lines 168-178). -/
def SqlPrinter.printSql (st : SqlPrinterState) (tok : SqlPrintToken) (level : Nat) : String :=
  renderLines st
    (SqlPrinter.appendTokenFueled st (tokenFuel tok) tok level none
      (setFirstLineLevel LinePrinterState.init level))

/-! ## SqlFormatter (src/unnamed/part_001) -/

/-- The options record accepted by the `SqlFormatter` constructor
(src/unnamed/part_001, lines 20-35).  The fields consumed only by the
print-token lowering (identifier escape, parameter symbol and style) are
omitted: the lowering is not under `src/` and no claim below depends on
them. -/
structure SqlFormatterOptions where
  preset : Option String := none
  indentSize : Option Nat := none
  indentChar : Option String := none
  newline : Option String := none
  keywordCase : Option KeywordCase := none
  commaBreak : Option CommaBreakStyle := none
  andBreak : Option CommaBreakStyle := none
  exportComment : Option Bool := none
  strictCommentPlacement : Option Bool := none
  cteOneline : Option Bool := none
  cteOnelineDependency : Option Bool := none
  deriving Repr, DecidableEq

/-- The preset names for which `PRESETS` has an entry.  Modelled from the
spec: `PRESETS` lives in the missing `SqlPrintTokenParser`; the name set
matches `VALID_PRESETS` in src/unnamed/part_001 line 10. -/
def presetNames : List String := ["mysql", "postgres", "sqlserver", "sqlite"]

/-- The `SqlPrinter` constructor defaults (SqlPrinter.ts lines 111-128)
applied to a formatter options record, including the always-empty
`cteOnelineSet` the `SqlFormatter` constructor passes (part_001 lines
52-59: the set is created empty and never populated). -/
def mkPrinterState (opts : SqlFormatterOptions) : SqlPrinterState :=
  { indentChar := opts.indentChar.getD ""
    indentSize := opts.indentSize.getD 0
    newline := opts.newline.getD " "
    commaBreak := opts.commaBreak.getD .none
    andBreak := opts.andBreak.getD .none
    keywordCase := opts.keywordCase.getD .none
    exportComment := opts.exportComment.getD false
    strictCommentPlacement := opts.strictCommentPlacement.getD false
    cteOneline := opts.cteOneline.getD false
    cteOnelineDependency := opts.cteOnelineDependency.getD false
    cteOnelineSet := []
    importComments := [] }

/-- The `SqlFormatter` instance state: the printer it owns (the
print-token parser holds no state any claim depends on). -/
structure SqlFormatter where
  printer : SqlPrinterState
  deriving Repr, DecidableEq

/-- The `SqlFormatter` constructor (src/unnamed/part_001, lines 20-59):
an unknown preset name raises a plain `Error` with message
`Invalid preset: <name>`; otherwise the printer is built from the
options. -/
def mkSqlFormatter (opts : SqlFormatterOptions) : Except ThrownError SqlFormatter :=
  match opts.preset with
  | some p =>
    if presetNames.contains p then .ok ⟨mkPrinterState opts⟩
    else .error (.error ("Invalid preset: " ++ p))
  | none => .ok ⟨mkPrinterState opts⟩

/-! ### Formatter-side query model and lowering

The formatter consumes the packages/core AST (`SimpleSelectQuery` and
friends).  The fragment below covers plain selects with an optional WITH
clause and binary set-operation queries, which is what the CTE claims
exercise. -/

mutual

/-- Formatter-side query: a simple select (optional WITH, select items,
optional single FROM table) or a binary set-operation query. -/
inductive FQuery where
  | simpleSelect (withCl : Option FWithClause) (items : List String)
      (fromTable : Option String)
  | binarySelect (left : FQuery) (op : String) (right : FQuery)

/-- Formatter-side WITH clause. -/
inductive FWithClause where
  | mk (recursive : Bool) (tables : List FCommonTable)

/-- Formatter-side common table: name and body. -/
inductive FCommonTable where
  | mk (name : String) (query : FQuery)

end

/-- `sql instanceof SimpleSelectQuery` (part_001 line 70). -/
def FQuery.isSimpleSelect : FQuery → Bool
  | .simpleSelect _ _ _ => true
  | .binarySelect _ _ _ => false

/-- Table names referenced as sources by a query (its own FROM clauses,
not those of its CTE bodies).  Modelled from the spec: reference
detection of the missing `CTEDependencyTracer` is syntactic, on
unqualified table source names. -/
def FQuery.sourceRefs : FQuery → List String
  | .simpleSelect _ _ (some t) => [t]
  | .simpleSelect _ _ none => []
  | .binarySelect l _ r => FQuery.sourceRefs l ++ FQuery.sourceRefs r

/-- Modelled from the spec: the `leafNodes` of the missing
`CTEDependencyTracer` — the CTEs referenced by the outer query but not
by any other CTE. -/
def leafNodes (tables : List FCommonTable) (outerRefs : List String) : List String :=
  (tables.filter (fun t =>
    match t with
    | .mk name _ =>
      outerRefs.contains name ∧
      ¬ (tables.any (fun u =>
        match u with
        | .mk uname ubody => uname ≠ name ∧ (FQuery.sourceRefs ubody).contains name)))).map
    (fun t => match t with | .mk name _ => name)

/-- `SqlFormatter.findDirectlyReferencedCtes` (part_001 lines 89-110):
the tracer's `leafNodes` for the query's WITH clause; empty when the
tracer has nothing to analyse. -/
def findDirectlyReferencedCtes : FQuery → List String
  | .simpleSelect (some (.mk _ tables)) _ fromTable =>
    leafNodes tables (FQuery.sourceRefs (.simpleSelect none [] fromTable))
  | _ => []

/-- `SqlFormatter.generateImportComments` (part_001 lines 117-120). -/
def generateImportComments (cteNames : List String) : List String :=
  cteNames.map (fun n => "/* import " ++ n ++ ".cte.sql */")

/-- Keyword print token. -/
def kwTok (s : String) : SqlPrintToken := .mk .keyword s .plain [] []

/-- Plain-text print token. -/
def txtTok (s : String) : SqlPrintToken := .mk .plain s .plain [] []

/-- Single-space print token. -/
def spTok : SqlPrintToken := txtTok " "

/-- Comma print token. -/
def commaTok : SqlPrintToken := .mk .comma "," .plain [] []

/-- Container print token. -/
def containerTok (ct : ContainerType) (children : List SqlPrintToken) : SqlPrintToken :=
  .mk .plain "" ct children []

/-- Comma-separated interleaving of token lists. -/
def joinComma : List (List SqlPrintToken) → List SqlPrintToken
  | [] => []
  | [x] => x
  | x :: xs => x ++ [commaTok, spTok] ++ joinComma xs

mutual

/-- Modelled from the spec: the print-token lowering
(`SqlPrintTokenParser.parse`) is not under `src/`.  Each clause becomes
a container token of the corresponding kind; a common table lowers to a
`CommonTable` container whose first child is the alias token (which is
what `extractCteNameFromToken` reads) and whose body sits inside a
`SubQuerySource` container between parentheses. -/
def lowerQuery : FQuery → SqlPrintToken
  | .simpleSelect withCl items fromTable =>
    let selectPart := containerTok .SelectClause
      ([kwTok "select", spTok] ++ joinComma (items.map (fun i => [txtTok i])))
    let fromPart :=
      match fromTable with
      | some t => [spTok, containerTok .FromClause [kwTok "from", spTok, txtTok t]]
      | none => []
    let withPart :=
      match withCl with
      | some w => [lowerWith w, spTok]
      | none => []
    containerTok .plain (withPart ++ [selectPart] ++ fromPart)
  | .binarySelect l op r =>
    containerTok .plain
      [lowerQuery l, spTok, containerTok .BinarySelectQueryOperator [kwTok op], spTok,
        lowerQuery r]

/-- Modelled from the spec: WITH clause lowering (see `lowerQuery`). -/
def lowerWith : FWithClause → SqlPrintToken
  | .mk recursive tables =>
    let head := if recursive then [kwTok "with", spTok, kwTok "recursive", spTok]
      else [kwTok "with", spTok]
    containerTok .WithClause (head ++ joinComma (lowerTables tables))

/-- Modelled from the spec: lowering of the common-table list (see
`lowerQuery`). -/
def lowerTables : List FCommonTable → List (List SqlPrintToken)
  | [] => []
  | t :: ts => [lowerCommonTable t] :: lowerTables ts

/-- Modelled from the spec: common table lowering (see `lowerQuery`). -/
def lowerCommonTable : FCommonTable → SqlPrintToken
  | .mk name query =>
    containerTok .CommonTable
      [txtTok name, spTok, kwTok "as", spTok,
        containerTok .SubQuerySource [txtTok "(", lowerQuery query, txtTok ")"]]

end

/-- The result record of `SqlFormatter.format`.  The parameter bag is
always empty in this fragment: the lowering that collects parameters is
not under `src/` and no claim below constrains its contents. -/
structure FormatResult where
  formattedSql : String
  params : List String
  deriving Repr, DecidableEq

/-- `SqlFormatter.format` (src/unnamed/part_001, lines 66-82).  When
dependency-based CTE formatting is enabled and the query is a
`SimpleSelectQuery`, the method mutates its printer **before** printing:
`cteOneline` is set to `true` (for every CTE, not only the leaves) and
the leaf import comments are installed.  The mutated printer persists on
the formatter instance, which the returned second component records. -/
def SqlFormatter.format (f : SqlFormatter) (sql : FQuery) : FormatResult × SqlFormatter :=
  let token := lowerQuery sql
  let printer :=
    if f.printer.cteOnelineDependency ∧ sql.isSimpleSelect then
      { f.printer with
        cteOneline := true
        importComments := generateImportComments (findDirectlyReferencedCtes sql) }
    else f.printer
  (⟨SqlPrinter.printSql printer token 0, []⟩, ⟨printer⟩)

/-- A sequence of `format` calls, threading the formatter instance
(models earlier `format` calls on the same instance). -/
def SqlFormatter.applyFormats (f : SqlFormatter) : List FQuery → SqlFormatter
  | [] => f
  | q :: qs => SqlFormatter.applyFormats (SqlFormatter.format f q).2 qs

/-! ## Round-trip fragment (spec-modelled pipeline)

The full `parse ∘ format ∘ parse` pipeline needs the tokenizer, the
value parser and the print-token lowering, none of which are under
`src/`.  The fragment below models that pipeline from the spec for
select lists of column references and parameters, with the two
formatter options that matter to the round-trip claim: parameter style
(§4.4 "Parameter emission") and keyword case. -/

/-- Parameter identity of the round-trip fragment. -/
inductive MiniParam where
  | named (name : String)
  | indexed (n : Nat)
  | anon
  deriving Repr, DecidableEq

/-- Select item of the round-trip fragment. -/
inductive MiniItem where
  | col (name : String)
  | param (p : MiniParam)
  deriving Repr, DecidableEq

/-- Query of the round-trip fragment: a select-item list. -/
structure MiniQuery where
  items : List MiniItem
  deriving Repr, DecidableEq

/-- Lexemes of the round-trip fragment. -/
inductive MiniTok where
  | kwSelect
  | ident (s : String)
  | comma
  | pnamed (s : String)
  | pindexed (n : Nat)
  | panon
  deriving Repr, DecidableEq

/-- Word characters of the modelled tokenizer. -/
def isWordChar (c : Char) : Bool := c.isAlpha || c.isDigit || c = '_'

/-- Modelled from the spec: keyword classification of the missing
`SqlTokenizer` — keywords are case-folded, everything else is an
identifier. -/
def classifyWord (w : List Char) : MiniTok :=
  if strToLower (String.mk w) = "select" then MiniTok.kwSelect
  else MiniTok.ident (String.mk w)

/-- Scanner state of the modelled tokenizer: outside any token, inside a
word, inside a `:name` parameter, or inside a `$n` parameter (reversed
accumulators). -/
inductive ScanState where
  | noWord
  | word (rev : List Char)
  | pword (rev : List Char)
  | dollar (rev : List Char)
  deriving Repr, DecidableEq

/-- Flushing the scanner state at a token boundary. -/
def flushState : ScanState → Except String (List MiniTok)
  | .noWord => .ok []
  | .word rev => .ok [classifyWord rev.reverse]
  | .pword rev =>
    if rev = [] then .error "empty parameter name"
    else .ok [MiniTok.pnamed (String.mk rev.reverse)]
  | .dollar rev =>
    if rev = [] then .error "empty parameter index"
    else .ok [MiniTok.pindexed (digitsToNat rev.reverse)]

/-- Modelled from the spec: the character scanner of the missing
`SqlTokenizer`, restricted to the fragment (words, commas, spaces,
`:name` / `$n` / `?` parameters). -/
def scanChars : List Char → ScanState → Except String (List MiniTok)
  | [], st => flushState st
  | c :: cs, st =>
    if isWordChar c then
      match st with
      | .noWord => scanChars cs (.word [c])
      | .word r => scanChars cs (.word (c :: r))
      | .pword r => scanChars cs (.pword (c :: r))
      | .dollar r =>
        if c.isDigit then scanChars cs (.dollar (c :: r))
        else .error "malformed parameter"
    else do
      let pre ← flushState st
      if c = ' ' then (pre ++ ·) <$> scanChars cs .noWord
      else if c = ',' then ((pre ++ [MiniTok.comma]) ++ ·) <$> scanChars cs .noWord
      else if c = ':' then (pre ++ ·) <$> scanChars cs (.pword [])
      else if c = '$' then (pre ++ ·) <$> scanChars cs (.dollar [])
      else if c = '?' then ((pre ++ [MiniTok.panon]) ++ ·) <$> scanChars cs .noWord
      else .error "unknown character"

/-- Modelled from the spec: tokenization of the fragment. -/
def miniTokenize (s : String) : Except String (List MiniTok) :=
  scanChars s.data ScanState.noWord

/-- One select item from one lexeme of the fragment. -/
def miniItemOfTok : MiniTok → Except String MiniItem
  | .ident s => .ok (MiniItem.col s)
  | .pnamed s => .ok (MiniItem.param (MiniParam.named s))
  | .pindexed n => .ok (MiniItem.param (MiniParam.indexed n))
  | .panon => .ok (MiniItem.param MiniParam.anon)
  | _ => .error "expected select item"

/-- Modelled from the spec: the comma-separated select-item production
of the fragment parser. -/
def miniParseItems : List MiniTok → Except String (List MiniItem)
  | [t] => do
    let i ← miniItemOfTok t
    .ok [i]
  | t :: MiniTok.comma :: rest => do
    let i ← miniItemOfTok t
    let is ← miniParseItems rest
    .ok (i :: is)
  | _ => .error "expected select item list"

/-- Modelled from the spec: `parseSelect` of the fragment — tokenize,
require the `select` keyword, parse the item list, reject anything
else. -/
def miniParse (s : String) : Except String MiniQuery := do
  let toks ← miniTokenize s
  match toks with
  | MiniTok.kwSelect :: rest => do
    let items ← miniParseItems rest
    .ok ⟨items⟩
  | _ => .error "Expected 'SELECT'"

/-- Parameter style of the fragment formatter (§4.4). -/
inductive ParameterStyle where
  | anonymous
  | indexed
  | named
  deriving Repr, DecidableEq

/-- Formatter options of the fragment. -/
structure MiniOptions where
  parameterStyle : ParameterStyle := .named
  keywordCase : KeywordCase := .none
  deriving Repr, DecidableEq

/-- The distinct parameter identities of a query in first-use order
(§4.4: each unique identity gets a stable index on first encounter). -/
def miniParamIds (items : List MiniItem) : List MiniParam :=
  items.foldl
    (fun acc i =>
      match i with
      | .param p => if acc.contains p then acc else acc ++ [p]
      | .col _ => acc) []

/-- Modelled from the spec: parameter emission (§4.4) — `$i` under the
indexed style, `?` under the anonymous style, `:name` under the named
style. -/
def renderParam (style : ParameterStyle) (ids : List MiniParam) (p : MiniParam) : String :=
  match style with
  | .anonymous => "?"
  | .indexed => "$" ++ toString ((ids.indexOf p) + 1)
  | .named =>
    match p with
    | .named s => ":" ++ s
    | .indexed n => ":" ++ toString n
    | .anon => "?"

/-- Rendering of one select item of the fragment. -/
def renderItem (opts : MiniOptions) (ids : List MiniParam) : MiniItem → String
  | .col n => n
  | .param p => renderParam opts.parameterStyle ids p

/-- Rendering of the comma-separated select list of the fragment. -/
def renderItems (opts : MiniOptions) (ids : List MiniParam) : List MiniItem → String
  | [] => ""
  | [i] => renderItem opts ids i
  | i :: is => renderItem opts ids i ++ ", " ++ renderItems opts ids is

/-- Modelled from the spec: `format` of the fragment. -/
def miniFormat (opts : MiniOptions) (q : MiniQuery) : String :=
  applyKeywordCase opts.keywordCase "select" ++ " " ++
    renderItems opts (miniParamIds q.items) q.items

/-- Well-formedness of a column name as the fragment tokenizer produces
it: non-empty, word characters only, and not the `select` keyword. -/
def wfName (n : String) : Bool :=
  n.data ≠ [] ∧ n.data.all isWordChar ∧ strToLower n ≠ "select"

/-- Well-formedness of a fragment query (what `miniParse` can return,
as far as column names are concerned). -/
def wfQuery (q : MiniQuery) : Bool :=
  q.items ≠ [] ∧ q.items.all (fun i => match i with | .col n => wfName n | .param _ => true)

/-- A parameter-free fragment query. -/
def paramFree (q : MiniQuery) : Bool :=
  q.items.all (fun i => match i with | .col _ => true | .param _ => false)

/-! ## Concrete formatter inputs used by the CTE claims -/

/-- `base_users AS (SELECT id FROM users)` (spec §8 scenario 4). -/
def qBaseUsers : FQuery := .simpleSelect none ["id"] (some "users")

/-- `enriched AS (SELECT id FROM base_users)` (spec §8 scenario 4). -/
def qEnriched : FQuery := .simpleSelect none ["id"] (some "base_users")

/-- The WITH query of spec §8 scenario 4: `base_users` is referenced by
`enriched` (hence not a leaf), `enriched` is referenced by the outer
query (hence the only leaf). -/
def scenario4 : FQuery :=
  .simpleSelect
    (some (.mk false [.mk "base_users" qBaseUsers, .mk "enriched" qEnriched]))
    ["*"] (some "enriched")

/-- Dependency-mode pretty-printing options (`cteOneline` left at its
`false` default). -/
def optsDep : SqlFormatterOptions :=
  { cteOnelineDependency := some true, newline := some "\n",
    indentChar := some " ", indentSize := some 2 }

/-- Dependency-mode options with a tab indent character. -/
def optsTab : SqlFormatterOptions :=
  { cteOnelineDependency := some true, newline := some "\n",
    indentChar := some "\t", indentSize := some 1 }

/-- A binary set-operation query whose left operand carries a WITH
clause — not a `SimpleSelectQuery`, so `format` never recomputes the
printer state for it. -/
def bQuery : FQuery :=
  .binarySelect
    (.simpleSelect (some (.mk false [.mk "t" qBaseUsers])) ["x"] (some "t"))
    "union"
    (.simpleSelect none ["y"] (some "zs"))

/-- Substring search on character lists. -/
def charsContain (hay needle : List Char) : Bool :=
  match hay with
  | [] => needle.isEmpty
  | _ :: t => if needle.isPrefixOf hay then true else charsContain t needle

/-- Substring search on strings. -/
def strContainsSub (hay needle : String) : Bool :=
  charsContain hay.data needle.data

/-- Whether a computation raised the structured `ParseError` of the
spec's taxonomy with `found = "end of input"`. -/
def raisedStructuredEoi {α : Type} : Except ThrownError α → Bool
  | .error (.parseErrorS _ _ f _) => f = "end of input"
  | _ => false

/-- Whether a computation raised the dedicated `PresetError` class of
the spec's taxonomy. -/
def raisedPresetError {α : Type} : Except ThrownError α → Bool
  | .error (.presetErrorS _) => true
  | _ => false

/-- The WITH-clause content phase of `handleWithClauseToken`
(SqlPrinter.ts lines 326-333): the clause text and all child tokens,
before any import comment is emitted. -/
def withClauseContent (st : SqlPrinterState) (fuel : Nat) (tok : SqlPrintToken)
    (level : Nat) (lp : LinePrinterState) : LinePrinterState :=
  tok.innerTokens.foldl
    (fun l c => SqlPrinter.appendTokenFueled st fuel c level (some tok.containerType) l)
    (lp.appendText tok.text)

/-- Text of the current (last) line of the line printer. -/
def LinePrinterState.currentText (lp : LinePrinterState) : String :=
  ((lp.lines.getLast?).map PrintLine.text).getD ""

/-! ## Concrete lexeme inputs -/

/-- Lexemes of `select 1 union select 2`. -/
def unionLexemes : List Lexeme :=
  [⟨.Keyword, "select"⟩, ⟨.Literal, "1"⟩, ⟨.Keyword, "union"⟩,
    ⟨.Keyword, "select"⟩, ⟨.Literal, "2"⟩]

/-- The query value `select 1` parses to. -/
def selectOneQuery : SelectQuery :=
  SelectQuery.mk none ⟨[SelectComponent.bare (ValueComponent.literalValue "1")]⟩
    none none none none none none none none

/-- Lexemes of `select 1`. -/
def selectOneLexemes : List Lexeme := [⟨.Keyword, "select"⟩, ⟨.Literal, "1"⟩]

/-- Lexemes of `( values ( 1 ) )`. -/
def valuesParenLexemes : List Lexeme :=
  [⟨.OpenParen, "("⟩, ⟨.Keyword, "values"⟩, ⟨.OpenParen, "("⟩,
    ⟨.Literal, "1"⟩, ⟨.CloseParen, ")"⟩, ⟨.CloseParen, ")"⟩]

/-- A single open parenthesis lexeme (stream exhausted right after it). -/
def lonelyParen : List Lexeme := [⟨.OpenParen, "("⟩]

/-- Lexemes of `select a as` (trailing `as`). -/
def selectAAsLexemes : List Lexeme :=
  [⟨.Keyword, "select"⟩, ⟨.Identifier, "a"⟩, ⟨.Keyword, "as"⟩]

/-- Pretty-printing options with dependency mode off. -/
def optsNoDep : SqlFormatterOptions :=
  { newline := some "\n", indentChar := some " ", indentSize := some 2 }

/-- The printer state `format` leaves behind after formatting
`scenario4` under `optsTab` (dependency mode mutates `cteOneline` and
`importComments`). -/
def stTab : SqlPrinterState :=
  { mkPrinterState optsTab with
    cteOneline := true
    importComments := ["/* import enriched.cte.sql */"] }

/-- The lowered WITH clause token of `scenario4`. -/
def withTok4 : SqlPrintToken :=
  lowerWith (.mk false [.mk "base_users" qBaseUsers, .mk "enriched" qEnriched])

/-- A fresh line printer positioned at level 0. -/
def lp0 : LinePrinterState := setFirstLineLevel LinePrinterState.init 0

/-- The lexeme sequence a column-only select list renders to
(identifier tokens separated by commas); used to state the round-trip
lemmas of the fragment. -/
def colTokens : List MiniItem → List MiniTok
  | [] => []
  | [.col n] => [MiniTok.ident n]
  | .col n :: rest => MiniTok.ident n :: MiniTok.comma :: colTokens rest
  | .param _ :: rest => colTokens rest

end RawSql

/-! # Theorems -/

namespace RawSql

/-- Reduction of a bind on a successful `Except` (helper shared by the
parser theorems). -/
theorem exceptOkBind {ε α β : Type} (a : α) (f : α → Except ε β) :
    (Except.ok a >>= f : Except ε β) = f a := rfl

/-- Reduction of a map on a successful `Except`. -/
theorem exceptMapOk {ε α β : Type} (f : α → β) (a : α) :
    (f <$> (Except.ok a : Except ε α) : Except ε β) = .ok (f a) := rfl

/-- C5 counterexample: after completing the `SimpleSelect` of
`select 1 union select 2`, `SelectQueryParser.parse` returns the bare
select query with the `union` lexeme left unconsumed — no `BinarySelect`
node is built (the parser has no set-operator handling at all) — and
`parseFromText` then rejects the input instead of parsing the chain. -/
theorem set_operator_not_wrapped_cex :
    SelectQueryParser.parse unionLexemes 0 = .ok ⟨selectOneQuery, 2⟩ ∧
    unionLexemes[2]? = some ⟨TokenType.Keyword, "union"⟩ ∧
    SelectQueryParser.parseFromLexemes unionLexemes =
      .error (.error "Syntax error: Unexpected token \"union\" at position 2. The SELECT query is complete but there are additional tokens.") :=
  ⟨rfl, rfl, rfl⟩

/-- C5 amended: whenever `SelectQueryParser.parse` completes a query
leaving lexemes unconsumed (in particular a following set operator),
`parseFromText` fails with the trailing-token error; no set-operation
node is ever produced. -/
theorem set_operator_left_unconsumed_rejected
    (lexemes : List Lexeme) (r : ParseResult SelectQuery)
    (h : SelectQueryParser.parse lexemes 0 = .ok r)
    (h2 : r.newIndex < lexemes.length) :
    SelectQueryParser.parseFromLexemes lexemes =
      .error (.error ("Syntax error: Unexpected token \"" ++
        ((lexemes[r.newIndex]?).map Lexeme.value).getD "" ++ "\" at position " ++
        toString r.newIndex ++
        ". The SELECT query is complete but there are additional tokens.")) := by
  unfold SelectQueryParser.parseFromLexemes
  rw [h, exceptOkBind, if_pos h2]

/-- Witness for `set_operator_left_unconsumed_rejected` at
`select 1 union select 2`. -/
theorem set_operator_left_unconsumed_rejected_witness :
    SelectQueryParser.parseFromLexemes unionLexemes =
      .error (.error "Syntax error: Unexpected token \"union\" at position 2. The SELECT query is complete but there are additional tokens.") :=
  set_operator_left_unconsumed_rejected unionLexemes ⟨selectOneQuery, 2⟩ rfl (by decide)

/-- C9: a successful `parseFromText` (embedded from the lexeme stage
onwards) implies the parser consumed every lexeme; unconsumed trailing
lexemes always raise the trailing-token error (lines 23-26 of
src/src/parsers/SelectQueryParser.ts). -/
theorem parseFromLexemes_consumes_all
    (lexemes : List Lexeme) (q : SelectQuery)
    (h : SelectQueryParser.parseFromLexemes lexemes = .ok q) :
    ∀ r, SelectQueryParser.parse lexemes 0 = .ok r →
      r.value = q ∧ lexemes.length ≤ r.newIndex := by
  intro r hr
  unfold SelectQueryParser.parseFromLexemes at h
  rw [hr, exceptOkBind] at h
  by_cases hlt : r.newIndex < lexemes.length
  · rw [if_pos hlt] at h
    exact absurd h (by simp)
  · rw [if_neg hlt] at h
    simp only [Except.ok.injEq] at h
    exact ⟨h, Nat.le_of_not_lt hlt⟩

/-- Witness for `parseFromLexemes_consumes_all` at `select 1`. -/
theorem parseFromLexemes_consumes_all_witness :
    (⟨selectOneQuery, 2⟩ : ParseResult SelectQuery).value = selectOneQuery ∧
    selectOneLexemes.length ≤ (⟨selectOneQuery, 2⟩ : ParseResult SelectQuery).newIndex :=
  parseFromLexemes_consumes_all selectOneLexemes selectOneQuery rfl ⟨selectOneQuery, 2⟩ rfl

/-- C10: when the expression of a select item is followed by an `as`
lexeme that is not followed by an identifier lexeme (or by nothing at
all), `ParseItem` consumes the `as` and returns the item without an
alias instead of raising an error; in particular the full select-clause
parse of `select a as` succeeds. -/
theorem trailing_as_consumed_without_alias :
    (∀ (lexemes : List Lexeme) (index : Nat) (v : ValueComponent) (j : Nat),
      ValueParser.Parse lexemes index = .ok ⟨v, j⟩ →
      ∀ asLex : Lexeme, lexemes[j]? = some asLex → asLex.value = "as" →
      (∀ l : Lexeme, lexemes[j+1]? = some l → l.type ≠ TokenType.Identifier) →
      SelectClauseParser.ParseItem lexemes index = .ok ⟨.bare v, j + 1⟩) ∧
    SelectClauseParser.ParseFromLexemes selectAAsLexemes =
      .ok ⟨[SelectComponent.bare (ValueComponent.columnReference none "a")]⟩ := by
  constructor
  · intro lexemes index v j hv asLex has hasv hnext
    unfold SelectClauseParser.ParseItem
    rw [hv, exceptOkBind]
    simp only [has, hasv, if_pos]
    cases h2 : lexemes[j+1]? with
    | none => simp
    | some l => simp [hnext l h2]
  · rfl

/-- Witness for `trailing_as_consumed_without_alias` at `select a as`
(the `as` sits at cursor 2 and the stream ends right after it). -/
theorem trailing_as_consumed_without_alias_witness :
    SelectClauseParser.ParseItem selectAAsLexemes 1 =
      .ok ⟨.bare (ValueComponent.columnReference none "a"), 3⟩ :=
  trailing_as_consumed_without_alias.1 selectAAsLexemes 1
    (ValueComponent.columnReference none "a") 2 rfl ⟨.Keyword, "as"⟩ rfl rfl
    (fun l hl => by simp [selectAAsLexemes] at hl)

/-- C6 counterexample: a VALUES query inside parentheses is rejected by
the source parser — `( values ( 1 ) )` raises the
`Expected 'SELECT' or '('` error instead of returning a source node. -/
theorem values_in_paren_rejected_cex :
    SourceParser.parse valuesParenLexemes 0 =
      .error (.error "Expected 'SELECT' or '(' at index 1") := rfl

/-- C6 amended: `parseParenSource` peeks exactly one token past the open
parenthesis and accepts only a `select` lexeme or a nested open
parenthesis there; any other lexeme — a VALUES query included — raises
the `Expected 'SELECT' or '('` error. -/
theorem paren_source_requires_select_or_paren
    (fuel : Nat) (lexemes : List Lexeme) (index : Nat) (l : Lexeme)
    (h : lexemes[index+1]? = some l)
    (h1 : l.value ≠ "select") (h2 : l.type ≠ TokenType.OpenParen) :
    SourceParser.parseParenSourceFueled (fuel+1) lexemes index =
      .error (.error ("Expected 'SELECT' or '(' at index " ++ toString (index+1))) := by
  unfold SourceParser.parseParenSourceFueled
  simp [h, h1, h2]

/-- Witness for `paren_source_requires_select_or_paren` at
`( values ( 1 ) )`. -/
theorem paren_source_requires_select_or_paren_witness :
    SourceParser.parseParenSourceFueled 6 valuesParenLexemes 0 =
      .error (.error "Expected 'SELECT' or '(' at index 1") :=
  paren_source_requires_select_or_paren 5 valuesParenLexemes 0 ⟨.Keyword, "values"⟩
    rfl (by decide) (by decide)

/-- C7 counterexample: two parser routines reach the end of the stream
mid-production and neither raises a structured `ParseError` with
`found = "end of input"`: `parseParenSource` raises a plain `Error`
whose message is `Unexpected end of input at index 1`, and
`SelectClauseParser.Parse` on an empty stream crashes with a TypeError
from the unchecked `lexemes[idx].value` read. -/
theorem eoi_error_unstructured_cex :
    SourceParser.parse lonelyParen 0 =
      .error (.error "Unexpected end of input at index 1") ∧
    raisedStructuredEoi (SourceParser.parse lonelyParen 0) = false ∧
    SelectClauseParser.Parse ([] : List Lexeme) 0 =
      .error (.typeError "Cannot read properties of undefined (reading 'value')") ∧
    raisedStructuredEoi (SelectClauseParser.Parse ([] : List Lexeme) 0) = false :=
  ⟨rfl, rfl, rfl, rfl⟩

/-- C7 amended: end of input mid-production raises a plain `Error`: in
`parseParenSource` with the message `Unexpected end of input at index N`
and in the top-level SELECT expectation with a message embedding
`end of input`; no structured error record is produced anywhere. -/
theorem eoi_raises_plain_error_messages :
    (∀ (fuel index : Nat) (lexemes : List Lexeme),
      lexemes.length = index + 1 →
      SourceParser.parseParenSourceFueled (fuel+1) lexemes index =
        .error (.error ("Unexpected end of input at index " ++ toString (index+1)))) ∧
    (∀ fuel : Nat, SelectQueryParser.parseFueled (fuel+1) [] 0 =
      .error (.error "Syntax error at position 0: Expected 'SELECT' keyword but found \"end of input\". SELECT queries must start with the SELECT keyword.")) := by
  constructor
  · intro fuel index lexemes hlen
    unfold SourceParser.parseParenSourceFueled
    have : lexemes[index+1]? = none := by
      apply List.getElem?_eq_none
      omega
    simp [this]
  · intro fuel
    rfl

/-- Witness for `eoi_raises_plain_error_messages` at `(` and at the
empty stream. -/
theorem eoi_raises_plain_error_messages_witness :
    SourceParser.parseParenSourceFueled 6 lonelyParen 0 =
      .error (.error "Unexpected end of input at index 1") ∧
    SelectQueryParser.parseFueled 4 [] 0 =
      .error (.error "Syntax error at position 0: Expected 'SELECT' keyword but found \"end of input\". SELECT queries must start with the SELECT keyword.") :=
  ⟨eoi_raises_plain_error_messages.1 5 0 lonelyParen rfl,
    eoi_raises_plain_error_messages.2 3⟩

/-- C8 counterexample: constructing a formatter with the unknown preset
`oracle` raises the plain `Error` with message `Invalid preset: oracle`,
not a dedicated `PresetError` class (no such class exists in the code). -/
theorem unknown_preset_generic_error_cex :
    mkSqlFormatter { preset := some "oracle" } =
      .error (.error "Invalid preset: oracle") ∧
    raisedPresetError (mkSqlFormatter { preset := some "oracle" }) = false :=
  ⟨rfl, rfl⟩

/-- C8 amended: an unknown preset name makes the constructor throw a
plain `Error` with message `Invalid preset: <name>`; each of the four
known presets (`mysql`, `postgres`, `sqlserver`, `sqlite`) constructs
successfully. -/
theorem preset_check_behavior :
    (∀ (opts : SqlFormatterOptions) (p : String), opts.preset = some p →
      presetNames.contains p = false →
      mkSqlFormatter opts = .error (.error ("Invalid preset: " ++ p))) ∧
    (∀ (opts : SqlFormatterOptions) (p : String), opts.preset = some p →
      presetNames.contains p = true →
      mkSqlFormatter opts = .ok ⟨mkPrinterState opts⟩) := by
  constructor
  · intro opts p hp hc
    unfold mkSqlFormatter
    rw [hp]
    simp only [hc]
    simp
  · intro opts p hp hc
    unfold mkSqlFormatter
    rw [hp]
    simp only [hc]
    simp

/-- Witness for `preset_check_behavior` at `oracle` (rejected) and
`postgres` (accepted). -/
theorem preset_check_behavior_witness :
    mkSqlFormatter { preset := some "oracle" } =
      .error (.error "Invalid preset: oracle") ∧
    mkSqlFormatter { preset := some "postgres" } =
      .ok ⟨mkPrinterState { preset := some "postgres" }⟩ :=
  ⟨preset_check_behavior.1 { preset := some "oracle" } "oracle" rfl (by decide),
    preset_check_behavior.2 { preset := some "postgres" } "postgres" rfl (by decide)⟩

set_option maxRecDepth 10000 in
/-- C1 counterexample: formatting spec §8 scenario 4 with
`cteOnelineDependency = true` and `cteOneline = false` renders the
non-leaf CTE `base_users` as a one-liner (its whole body on one line
inside the output), while the claim requires every non-leaf CTE to be
formatted normally (multi-line under the pretty newline). -/
theorem cte_dependency_onelines_nonleaf_cex :
    (SqlFormatter.format ⟨mkPrinterState optsDep⟩ scenario4).1.formattedSql =
      "with base_users as (select id from users),\n enriched as (select id from base_users)\n    /* import enriched.cte.sql */ \n  select *\n \n  from enriched" ∧
    strContainsSub
      "with base_users as (select id from users),\n enriched as (select id from base_users)\n    /* import enriched.cte.sql */ \n  select *\n \n  from enriched"
      "base_users as (select id from users)" = true :=
  ⟨rfl, rfl⟩

/-- C1 amended: when `cteOnelineDependency` is enabled and the query is
a `SimpleSelectQuery`, `format` sets the printer's `cteOneline` flag, so
`shouldFormatCteOneline` answers `true` for **every** token — every CTE
(leaf or not) is rendered as a one-liner; the per-name leaf set is never
consulted (it stays empty), and the tracer's leaves are used only for
the import comments. -/
theorem cte_dependency_marks_every_common_table_oneline
    (f : SqlFormatter) (q : FQuery) (tok : SqlPrintToken)
    (h : f.printer.cteOnelineDependency = true) (h2 : q.isSimpleSelect = true) :
    shouldFormatCteOneline ((SqlFormatter.format f q).2).printer tok = true := by
  unfold SqlFormatter.format shouldFormatCteOneline
  simp [h, h2]

/-- Witness for `cte_dependency_marks_every_common_table_oneline` at
`scenario4` and the lowered `base_users` token. -/
theorem cte_dependency_marks_every_common_table_oneline_witness :
    shouldFormatCteOneline ((SqlFormatter.format ⟨mkPrinterState optsDep⟩ scenario4).2).printer
      (lowerCommonTable (.mk "base_users" qBaseUsers)) = true :=
  cte_dependency_marks_every_common_table_oneline ⟨mkPrinterState optsDep⟩ scenario4
    (lowerCommonTable (.mk "base_users" qBaseUsers)) rfl rfl

set_option maxRecDepth 10000 in
/-- C3 counterexample: the same formatter instance, the same options and
two structurally identical query trees, yet the result differs depending
on an earlier `format` call: formatting the `SimpleSelectQuery`
`scenario4` first leaves `cteOneline = true` and a stale import comment
on the printer, which then leaks into the output of the binary query
`bQuery`. -/
theorem format_state_mutation_cex :
    (SqlFormatter.format ⟨mkPrinterState optsDep⟩ bQuery).1 ≠
      (SqlFormatter.format
        (SqlFormatter.format ⟨mkPrinterState optsDep⟩ scenario4).2 bQuery).1 := by
  decide

/-- Helper: `format` does not mutate the formatter when dependency mode
is off. -/
theorem formatKeepsState (f : SqlFormatter) (q : FQuery)
    (h : f.printer.cteOnelineDependency = false) :
    (SqlFormatter.format f q).2 = f := by
  cases f with
  | mk pr =>
    unfold SqlFormatter.format
    simp_all

/-- C3 amended: with `cteOnelineDependency` disabled, `format` is a pure
function of the query tree and the options — any sequence of earlier
`format` calls on the same instance leaves the result unchanged.  (With
the flag enabled the counterexample shows it is not pure.) -/
theorem format_pure_without_cte_dependency
    (opts : SqlFormatterOptions) (qs : List FQuery) (q : FQuery)
    (h : (mkPrinterState opts).cteOnelineDependency = false) :
    (SqlFormatter.format (SqlFormatter.applyFormats ⟨mkPrinterState opts⟩ qs) q).1 =
      (SqlFormatter.format ⟨mkPrinterState opts⟩ q).1 := by
  have key : SqlFormatter.applyFormats ⟨mkPrinterState opts⟩ qs = ⟨mkPrinterState opts⟩ := by
    induction qs with
    | nil => rfl
    | cons a as ih =>
      simp only [SqlFormatter.applyFormats]
      rw [formatKeepsState ⟨mkPrinterState opts⟩ a h]
      exact ih
  rw [key]

/-- Witness for `format_pure_without_cte_dependency`: an earlier call on
`scenario4` does not change the formatting of `bQuery` when dependency
mode is off. -/
theorem format_pure_without_cte_dependency_witness :
    (SqlFormatter.format (SqlFormatter.applyFormats ⟨mkPrinterState optsNoDep⟩ [scenario4]) bQuery).1 =
      (SqlFormatter.format ⟨mkPrinterState optsNoDep⟩ bQuery).1 :=
  format_pure_without_cte_dependency optsNoDep [scenario4] bQuery rfl

set_option maxRecDepth 10000 in
/-- C4 counterexample: formatting scenario 4 with `indentChar = "\t"`,
`indentSize = 1` still prefixes the import comment with four literal
spaces (never the configured tab), and the comment is emitted after the
entire WITH clause (after the last CTE body), not after the `WITH`
keyword line. -/
theorem import_comment_indent_cex :
    (SqlFormatter.format ⟨mkPrinterState optsTab⟩ scenario4).1.formattedSql =
      "with base_users as (select id from users),\n enriched as (select id from base_users)\n    /* import enriched.cte.sql */ \n\tselect *\n \n\tfrom enriched" ∧
    strContainsSub
      "with base_users as (select id from users),\n enriched as (select id from base_users)\n    /* import enriched.cte.sql */ \n\tselect *\n \n\tfrom enriched"
      "(select id from base_users)\n    /* import enriched.cte.sql */" = true ∧
    strContainsSub
      "with base_users as (select id from users),\n enriched as (select id from base_users)\n    /* import enriched.cte.sql */ \n\tselect *\n \n\tfrom enriched"
      "\t/* import" = false :=
  ⟨rfl, rfl, rfl⟩

/-- Helper: the empty string is a left identity of append. -/
theorem strEmptyAppend (t : String) : "" ++ t = t := by
  cases t with
  | mk d => rfl

/-- Helper: the character data of an append. -/
theorem strDataAppend (a b : String) : (a ++ b).data = a.data ++ b.data := by
  cases a with
  | mk da =>
    cases b with
    | mk db => rfl

/-- Helper: appending to a non-empty string on the left stays
non-empty. -/
theorem strAppendNeEmpty (a b : String) (h : a.data ≠ []) : a ++ b ≠ "" := by
  intro heq
  have hd : (a ++ b).data = [] := by rw [heq]
  rw [strDataAppend] at hd
  exact h (List.append_eq_nil.mp hd).1

/-- Helper: on a line printer whose current line is non-empty,
`appendNewline` followed by `appendText` appends exactly one new line
with the given text. -/
theorem lpStepLines (lp : LinePrinterState) (level : Nat) (t : String)
    (h : lp.currentText ≠ "") :
    ((lp.appendNewline level).appendText t).lines = lp.lines ++ [⟨level, t⟩] ∧
    ((lp.appendNewline level).appendText t).currentText = t := by
  obtain ⟨last, hlast⟩ : ∃ l, lp.lines.getLast? = some l := by
    cases hg : lp.lines.getLast? with
    | none =>
      exfalso
      apply h
      unfold LinePrinterState.currentText
      rw [hg]
      rfl
    | some l => exact ⟨l, rfl⟩
  have htext : last.text ≠ "" := by
    unfold LinePrinterState.currentText at h
    rw [hlast] at h
    simpa using h
  have hnl : lp.appendNewline level = ⟨lp.lines ++ [⟨level, ""⟩]⟩ := by
    unfold LinePrinterState.appendNewline
    rw [hlast]
    simp [htext]
  have hat : ((⟨lp.lines ++ [⟨level, ""⟩]⟩ : LinePrinterState).appendText t) =
      ⟨lp.lines ++ [⟨level, t⟩]⟩ := by
    unfold LinePrinterState.appendText
    rw [List.getLast?_concat]
    simp [List.dropLast_concat, strEmptyAppend]
  rw [hnl, hat]
  refine ⟨rfl, ?_⟩
  unfold LinePrinterState.currentText
  rw [List.getLast?_concat]
  rfl

/-- Helper: the import-comment emission loop appends, after the existing
lines, one line per comment at the given level whose text is the comment
prefixed by four literal spaces. -/
theorem appendCommentsLines (cs : List String) (level : Nat) (lp : LinePrinterState)
    (h : lp.currentText ≠ "") :
    (cs.foldl (fun l c => (l.appendNewline level).appendText ("    " ++ c)) lp).lines =
      lp.lines ++ cs.map (fun c => (⟨level, "    " ++ c⟩ : PrintLine)) := by
  induction cs generalizing lp with
  | nil => simp
  | cons c cs ih =>
    have hne : ("    " ++ c) ≠ "" := strAppendNeEmpty "    " c (by decide)
    obtain ⟨hl, hc⟩ := lpStepLines lp level ("    " ++ c) h
    simp only [List.foldl_cons, List.map_cons]
    rw [ih _ (by rw [hc]; exact hne), hl]
    simp

/-- C4 amended: when import comments are present, the WITH-clause token
takes the dedicated early-return path, and the comments are emitted
after the **entire** clause content (keyword and all CTEs), each on its
own line at the clause's own level with the text prefixed by four
literal spaces — the configured indent character and size play no part
in the prefix. -/
theorem import_comments_after_with_clause_four_spaces
    (st : SqlPrinterState) (fuel : Nat) (tok : SqlPrintToken) (level : Nat)
    (parentCT : Option ContainerType) (lp : LinePrinterState)
    (h1 : tok.containerType = ContainerType.WithClause)
    (h2 : st.importComments ≠ [])
    (h3 : shouldSkipToken tok = false) :
    SqlPrinter.appendTokenFueled st (fuel+1) tok level parentCT lp =
      SqlPrinter.handleWithClauseFueled st fuel tok level lp ∧
    ((withClauseContent st fuel tok level lp).currentText ≠ "" →
      (SqlPrinter.handleWithClauseFueled st fuel tok level lp).lines =
        (withClauseContent st fuel tok level lp).lines ++
          st.importComments.map (fun c => (⟨level, "    " ++ c⟩ : PrintLine))) := by
  constructor
  · unfold SqlPrinter.appendTokenFueled
    simp [h3, h1, h2, SqlPrinter.handleWithClauseFueled]
  · intro hct
    exact appendCommentsLines st.importComments level (withClauseContent st fuel tok level lp) hct

set_option maxRecDepth 10000 in
/-- Witness for `import_comments_after_with_clause_four_spaces` on the
mutated tab-indent printer state and scenario 4's WITH token. -/
theorem import_comments_after_with_clause_four_spaces_witness :
    SqlPrinter.appendTokenFueled stTab 100 withTok4 0 none lp0 =
      SqlPrinter.handleWithClauseFueled stTab 99 withTok4 0 lp0 ∧
    ((withClauseContent stTab 99 withTok4 0 lp0).currentText ≠ "" →
      (SqlPrinter.handleWithClauseFueled stTab 99 withTok4 0 lp0).lines =
        (withClauseContent stTab 99 withTok4 0 lp0).lines ++
          stTab.importComments.map (fun c => (⟨0, "    " ++ c⟩ : PrintLine))) :=
  import_comments_after_with_clause_four_spaces stTab 99 withTok4 0 none lp0
    rfl (by decide) (by decide)

/-- C2 counterexample: `select :uid` parses to a named parameter; under
`parameterStyle = indexed` it formats to `select $1`, which re-parses to
an indexed parameter — the two ASTs are not structurally equal, so the
round-trip fails for this option combination. -/
theorem roundtrip_parameter_style_cex :
    miniParse "select :uid" = .ok ⟨[MiniItem.param (MiniParam.named "uid")]⟩ ∧
    miniFormat { parameterStyle := .indexed } ⟨[MiniItem.param (MiniParam.named "uid")]⟩ =
      "select $1" ∧
    miniParse "select $1" = .ok ⟨[MiniItem.param (MiniParam.indexed 1)]⟩ ∧
    (⟨[MiniItem.param (MiniParam.named "uid")]⟩ : MiniQuery) ≠
      ⟨[MiniItem.param (MiniParam.indexed 1)]⟩ :=
  ⟨rfl, rfl, rfl, by decide⟩

/-- Helper: scanning word characters accumulates them into the current
word state. -/
theorem scanWordAccum (w : List Char) (r cs : List Char)
    (hw : ∀ c ∈ w, isWordChar c = true) :
    scanChars (w ++ cs) (.word r) = scanChars cs (.word (w.reverse ++ r)) := by
  induction w generalizing r with
  | nil => simp
  | cons c w ih =>
    have hc : isWordChar c = true := hw c (by simp)
    simp only [List.cons_append, scanChars, hc, if_pos]
    rw [show ((c :: w).reverse ++ r) = (w.reverse ++ (c :: r)) by simp]
    exact ih (c :: r) (fun c' h' => hw c' (by simp [h']))

/-- Helper: scanning a non-empty word from outside a token enters and
accumulates the word state. -/
theorem scanWordStart (w : List Char) (cs : List Char) (hne : w ≠ [])
    (hw : ∀ c ∈ w, isWordChar c = true) :
    scanChars (w ++ cs) .noWord = scanChars cs (.word w.reverse) := by
  cases w with
  | nil => exact absurd rfl hne
  | cons c w =>
    have hc : isWordChar c = true := hw c (by simp)
    simp only [List.cons_append, scanChars, hc, if_pos]
    rw [show (c :: w).reverse = w.reverse ++ [c] by simp]
    exact scanWordAccum w [c] cs (fun c' h' => hw c' (by simp [h']))

/-- Helper: the string built from a string's characters is the string
itself. -/
theorem strMkData (s : String) : String.mk s.data = s := by
  cases s with
  | mk d => rfl

/-- Helper: a comma flushes the current word and emits a comma token. -/
theorem scanCommaStep (cs rev : List Char) :
    scanChars (',' :: cs) (.word rev) =
      (([classifyWord rev.reverse] ++ [MiniTok.comma]) ++ ·) <$> scanChars cs .noWord := rfl

/-- Helper: a space flushes the current word. -/
theorem scanSpaceStep (cs rev : List Char) :
    scanChars (' ' :: cs) (.word rev) =
      ([classifyWord rev.reverse] ++ ·) <$> scanChars cs .noWord := rfl

/-- Helper: a space outside any token is skipped. -/
theorem scanSpaceNoWord (cs : List Char) :
    scanChars (' ' :: cs) .noWord = (([] : List MiniTok) ++ ·) <$> scanChars cs .noWord := rfl

/-- Helper: classification of a well-formed column name. -/
theorem classifyWordWf (n : String) (hwn : wfName n = true) :
    classifyWord n.data = MiniTok.ident n := by
  simp only [wfName, Bool.decide_and, Bool.and_eq_true, decide_eq_true_eq] at hwn
  unfold classifyWord
  rw [strMkData]
  rw [if_neg hwn.2.2]

/-- Helper: scanning the rendered column-only select list yields exactly
the identifier/comma token sequence. -/
theorem scanRenderCols (opts : MiniOptions) (ids : List MiniParam) (items : List MiniItem)
    (hne : items ≠ [])
    (hwf : items.all
      (fun i => match i with | .col n => wfName n | .param _ => false) = true) :
    scanChars (renderItems opts ids items).data .noWord = .ok (colTokens items) := by
  induction items with
  | nil => exact absurd rfl hne
  | cons i rest ih =>
    simp only [List.all_cons, Bool.and_eq_true] at hwf
    cases i with
    | param p => simp at hwf
    | col n =>
      have hwn : wfName n = true := hwf.1
      have hcomp := hwn
      simp only [wfName, Bool.decide_and, Bool.and_eq_true, decide_eq_true_eq,
        List.all_eq_true] at hcomp
      have hnd : n.data ≠ [] := hcomp.1
      have hall : ∀ c ∈ n.data, isWordChar c = true := hcomp.2.1
      cases rest with
      | nil =>
        show scanChars (renderItem opts ids (.col n)).data .noWord = .ok [MiniTok.ident n]
        unfold renderItem
        rw [show n.data = n.data ++ [] by simp]
        rw [scanWordStart n.data [] hnd hall]
        simp only [scanChars, flushState]
        rw [List.reverse_reverse, classifyWordWf n hwn]
      | cons j rest' =>
        show scanChars (renderItem opts ids (.col n) ++ ", " ++
          renderItems opts ids (j :: rest')).data .noWord = .ok (colTokens (.col n :: j :: rest'))
        unfold renderItem
        rw [strDataAppend, strDataAppend]
        have hcd : (", " : String).data = [',', ' '] := rfl
        rw [hcd, List.append_assoc]
        rw [scanWordStart n.data ([',', ' '] ++ (renderItems opts ids (j :: rest')).data) hnd hall]
        simp only [List.cons_append, List.nil_append]
        rw [scanCommaStep, scanSpaceNoWord, ih (by simp) hwf.2]
        simp only [Except.map, List.nil_append, List.reverse_reverse, classifyWordWf n hwn]
        simp [colTokens]

/-- Helper: re-parsing the identifier/comma token sequence returns the
original column items. -/
theorem miniParseItemsColTokens (items : List MiniItem) (hne : items ≠ [])
    (hcols : items.all
      (fun i => match i with | .col _ => true | .param _ => false) = true) :
    miniParseItems (colTokens items) = .ok items := by
  induction items with
  | nil => exact absurd rfl hne
  | cons i rest ih =>
    simp only [List.all_cons, Bool.and_eq_true] at hcols
    cases i with
    | param p => simp at hcols
    | col n =>
      cases rest with
      | nil => rfl
      | cons j rest' =>
        show miniParseItems (MiniTok.ident n :: MiniTok.comma :: colTokens (j :: rest')) =
          .ok (.col n :: j :: rest')
        have hct : ∃ t ts, colTokens (j :: rest') = t :: ts := by
          cases j with
          | col m =>
            cases rest' with
            | nil => exact ⟨MiniTok.ident m, [], rfl⟩
            | cons k r => exact ⟨MiniTok.ident m, MiniTok.comma :: colTokens (k :: r), rfl⟩
          | param p => simp at hcols
        obtain ⟨t, ts, hts⟩ := hct
        rw [hts]
        simp only [miniParseItems, miniItemOfTok, exceptOkBind]
        rw [← hts, ih (by simp) hcols.2]
        rfl

/-- C2 amended: the round-trip holds, for every combination of the
modelled formatter options (parameter style and keyword case), for every
well-formed query that contains no parameters; the counterexample shows
that with parameters it fails as soon as the parameter style changes the
placeholder text. -/
theorem roundtrip_paramfree_holds (opts : MiniOptions) (q : MiniQuery)
    (hwf : wfQuery q = true) (hpf : paramFree q = true) :
    miniParse (miniFormat opts q) = .ok q := by
  obtain ⟨items⟩ := q
  simp only [wfQuery, Bool.decide_and, Bool.and_eq_true, decide_eq_true_eq] at hwf
  have hne : items ≠ [] := hwf.1
  have hcolwf : items.all
      (fun i => match i with | .col n => wfName n | .param _ => false) = true := by
    simp only [paramFree] at hpf
    simp only [List.all_eq_true] at hwf hpf ⊢
    intro i hi
    have h1 := hwf.2 i hi
    have h2 := hpf i hi
    cases i with
    | col m => simpa using h1
    | param p => simp at h2
  have hcols : items.all
      (fun i => match i with | .col _ => true | .param _ => false) = true := by
    simp only [List.all_eq_true] at hcolwf ⊢
    intro i hi
    have := hcolwf i hi
    cases i with
    | col m => rfl
    | param p => simp at this
  have hscan : scanChars (renderItems opts (miniParamIds items) items).data .noWord =
      .ok (colTokens items) := scanRenderCols opts (miniParamIds items) items hne hcolwf
  have hkw : ∃ kw : String, applyKeywordCase opts.keywordCase "select" = kw ∧
      kw.data ≠ [] ∧ (∀ c ∈ kw.data, isWordChar c = true) ∧
      classifyWord kw.data = MiniTok.kwSelect := by
    cases hkc : opts.keywordCase with
    | none => exact ⟨"select", rfl, by decide, by decide, by decide⟩
    | upper => exact ⟨"SELECT", rfl, by decide, by decide, by decide⟩
    | lower => exact ⟨"select", rfl, by decide, by decide, by decide⟩
  obtain ⟨kw, hkweq, hkwne, hkwall, hkwcls⟩ := hkw
  unfold miniParse miniTokenize miniFormat
  rw [hkweq]
  rw [strDataAppend, strDataAppend]
  have hsp : (" " : String).data = [' '] := rfl
  rw [hsp, List.append_assoc]
  rw [scanWordStart kw.data ([' '] ++ (renderItems opts (miniParamIds items) items).data)
    hkwne hkwall]
  simp only [List.cons_append, List.nil_append]
  rw [scanSpaceStep, hscan]
  rw [List.reverse_reverse, hkwcls]
  rw [exceptMapOk]
  simp only [List.singleton_append, exceptOkBind]
  rw [miniParseItemsColTokens items hne hcols]
  rfl

/-- Witness for `roundtrip_paramfree_holds` on `select a, b_2` under the
anonymous parameter style and upper keyword case. -/
theorem roundtrip_paramfree_holds_witness :
    miniParse (miniFormat { parameterStyle := .anonymous, keywordCase := .upper }
      ⟨[MiniItem.col "a", MiniItem.col "b_2"]⟩) =
      .ok ⟨[MiniItem.col "a", MiniItem.col "b_2"]⟩ :=
  roundtrip_paramfree_holds { parameterStyle := .anonymous, keywordCase := .upper }
    ⟨[MiniItem.col "a", MiniItem.col "b_2"]⟩ (by decide) (by decide)

end RawSql
